import Mathlib

/-! Presence registry and client presence monitor of the minho chat client.

Shallow embedding of the presence part of `src/server/index.js`, `src/server/db.js`,
of the idle-detection effect and of the call negotiation of `src/client/src/App.jsx`, and of
the group engine and the screen share of `src/client/src/components/CallModal.jsx`.

* The JavaScript `Map` `onlineUsers` is an association list in insertion order
  (`mapSet` replaces in place or appends, `mapDelete` removes the key).
* A handler returns the new server state together with the list of socket
  emissions it performed, in program order.
* Timestamps (`Date.now()`) are integers and are passed to the handlers.
* A client handler is a function of the values its closure captured and of the call state;
  it returns the new call state and its effects. `ClientWorld` and `clientStep` put the
  handlers together with the pending timers and the captured values of the live closures.
-/

namespace Minho

/-! ## Data model -/

/-- Presence status strings: the domain 'online', 'dnd', 'invisible', 'offline'. -/
inductive Status where
  | online
  | dnd
  | invisible
  | offline
deriving DecidableEq, Repr

/-- One record of `data.users` in `db.js` (the fields the presence code reads or writes);
`status` may be absent. -/
structure User where
  id : Nat
  username : String
  password : String
  avatar : Option String
  status : Option Status
deriving DecidableEq, Repr

/-- One record of `data.friendships`; `pending` is `status === 'pending'`. -/
structure Friendship where
  user_a : Nat
  user_b : Nat
  pending : Bool
deriving DecidableEq, Repr

/-- The persisted `data` object of `db.js`, restricted to users and friendships. -/
structure Db where
  users : List User
  friendships : List Friendship
deriving DecidableEq, Repr

/-- The value stored in the `onlineUsers` map by `join`. -/
structure UserData where
  socketId : String
  lastActive : Int
  username : String
  avatar : Option String
  status : Status
deriving DecidableEq, Repr

/-- The `onlineUsers` map: entries in insertion order. -/
abbrev OnlineUsers := List (Nat × UserData)

/-- Server state: the persisted data and the in-memory registry. -/
structure ServerState where
  db : Db
  onlineUsers : OnlineUsers
deriving DecidableEq, Repr

/-- Socket emissions of the presence handlers. -/
inductive Emit where
  | userStatusChange (userId : Nat) (status : Status)
  | onlineUsers (visibleUsers : List (Nat × Status))
  | friendStatusChange (socketId : String) (userId : Nat) (status : Status)
deriving DecidableEq, Repr

/-- Per-connection closure state of `io.on('connection')`: the socket id and `currentUserId`. -/
structure Conn where
  socketId : String
  currentUserId : Option Nat
deriving DecidableEq, Repr

/-! ## The `Map` operations -/

/-- `onlineUsers.get(key)`. -/
def mapGet : OnlineUsers → Nat → Option UserData
  | [], _ => none
  | (k, v) :: rest, key => if k = key then some v else mapGet rest key

/-- `onlineUsers.has(key)`. -/
def mapHas (m : OnlineUsers) (key : Nat) : Bool := (mapGet m key).isSome

/-- `onlineUsers.set(key, value)`: an existing key keeps its position, a new key is appended. -/
def mapSet : OnlineUsers → Nat → UserData → OnlineUsers
  | [], key, value => [(key, value)]
  | (k, v) :: rest, key, value =>
    if k = key then (k, value) :: rest else (k, v) :: mapSet rest key value

/-- `onlineUsers.delete(key)`. -/
def mapDelete (m : OnlineUsers) (key : Nat) : OnlineUsers :=
  m.filter (fun e => decide (e.1 ≠ key))

/-- Keys of a JavaScript `Map` are unique. -/
def NodupKeys (m : OnlineUsers) : Prop := (m.map Prod.fst).Nodup

/-! ## `db.js` -/

/-- `data.users.find(u => u.id === id)`. -/
def findUser (users : List User) (id : Nat) : Option User :=
  users.find? (fun u => decide (u.id = id))

/-- `updateUserStatus(userId, status)`: the first user with that id gets the status. -/
def updateUsers : List User → Nat → Status → List User
  | [], _, _ => []
  | u :: us, userId, status =>
    if u.id = userId then { u with status := some status } :: us
    else u :: updateUsers us userId status

/-- `updateUserStatus` on the whole persisted object. -/
def updateUserStatus (db : Db) (userId : Nat) (status : Status) : Db :=
  { db with users := updateUsers db.users userId status }

/-- `createUser(username, password)`: throws 'Taken' on a known name, otherwise appends a
user whose id is `data.users.length + 1` and whose status is 'online'. -/
def createUser (db : Db) (username password : String) : Except String (Db × User) :=
  if (db.users.find? (fun u => decide (u.username = username))).isSome then
    Except.error "Taken"
  else
    let u : User :=
      { id := db.users.length + 1, username := username, password := password,
        avatar := none, status := some Status.online }
    Except.ok ({ db with users := db.users ++ [u] }, u)

/-- Relation reported by `getFriends` in the `status` field of a friend record. -/
inductive FriendRel where
  | sent
  | received
  | friend
deriving DecidableEq, Repr

/-- A record returned by `getFriends` (presence-relevant fields). -/
structure FriendView where
  id : Nat
  username : String
  avatar : Option String
  status : FriendRel
  onlineStatus : Status
deriving DecidableEq, Repr

/-- `getFriends(userId)`. -/
def getFriends (db : Db) (userId : Nat) : List FriendView :=
  (db.friendships.filter (fun f => decide (f.user_a = userId) || decide (f.user_b = userId))).filterMap
    (fun f =>
      let fid := if f.user_a = userId then f.user_b else f.user_a
      match findUser db.users fid with
      | none => none
      | some u =>
        some
          { id := u.id, username := u.username, avatar := u.avatar,
            status :=
              if f.pending then (if f.user_a = userId then FriendRel.sent else FriendRel.received)
              else FriendRel.friend,
            onlineStatus := u.status.getD Status.offline })

/-! ## `index.js`: presence handlers -/

/-- JavaScript truthiness of `currentUserId` (null and 0 are falsy). -/
def truthyId : Option Nat → Option Nat
  | some (n + 1) => some (n + 1)
  | _ => none

/-- Public view of a status: `status === 'invisible' ? 'offline' : status`. -/
def publicStatus (status : Status) : Status :=
  if status = Status.invisible then Status.offline else status

/-- The snapshot expression:
`Array.from(onlineUsers.entries()).filter(([_, u]) => u.status !== 'invisible').map(([id, u]) => ({ id, status: u.status }))`. -/
def visibleUsers (m : OnlineUsers) : List (Nat × Status) :=
  (m.filter (fun e => decide (e.2.status ≠ Status.invisible))).map (fun e => (e.1, e.2.status))

/-- `broadcastStatus(userId, status)`: one `friend_status_change` per accepted friend that is
in the registry. -/
def broadcastStatus (st : ServerState) (userId : Nat) (status : Status) : List Emit :=
  ((getFriends st.db userId).filter (fun f => decide (f.status = FriendRel.friend))).filterMap
    (fun f =>
      match mapGet st.onlineUsers f.id with
      | some userData => some (Emit.friendStatusChange userData.socketId userId status)
      | none => none)

/-- `socket.on('join')`. -/
def onJoin (conn : Conn) (id : Nat) (now : Int) (st : ServerState) :
    Conn × ServerState × List Emit :=
  let conn1 : Conn := { conn with currentUserId := some id }
  match findUser st.db.users id with
  | none => (conn1, st, [])
  | some u =>
    let initialStatus : Status :=
      match u.status with
      | some s => if s ≠ Status.offline then s else Status.online
      | none => Status.online
    let reg := mapSet st.onlineUsers id
      { socketId := conn.socketId, lastActive := now, username := u.username,
        avatar := u.avatar, status := initialStatus }
    let pub := publicStatus initialStatus
    let db1 :=
      if initialStatus ≠ Status.offline ∧ initialStatus ≠ Status.invisible then
        updateUserStatus st.db id initialStatus
      else st.db
    let st1 : ServerState := { db := db1, onlineUsers := reg }
    (conn1, st1, broadcastStatus st1 id pub ++ [Emit.onlineUsers (visibleUsers reg)])

/-- `socket.on('set_status')`. -/
def onSetStatus (conn : Conn) (status : Status) (now : Int) (st : ServerState) :
    ServerState × List Emit :=
  match truthyId conn.currentUserId with
  | none => (st, [])
  | some currentUserId =>
    match mapGet st.onlineUsers currentUserId with
    | none => (st, [])
    | some user =>
      let reg := mapSet st.onlineUsers currentUserId
        { user with status := status, lastActive := now }
      let db1 := updateUserStatus st.db currentUserId status
      let pub := publicStatus status
      let st1 : ServerState := { db := db1, onlineUsers := reg }
      let delta := [Emit.userStatusChange currentUserId pub]
      if status = Status.invisible ∨ (pub = Status.offline ∧ status ≠ Status.offline) then
        (st1, delta ++ [Emit.onlineUsers (visibleUsers reg)])
      else (st1, delta)

/-- `socket.on('heartbeat')`. -/
def onHeartbeat (conn : Conn) (now : Int) (st : ServerState) : ServerState × List Emit :=
  match truthyId conn.currentUserId with
  | none => (st, [])
  | some currentUserId =>
    match mapGet st.onlineUsers currentUserId with
    | none => (st, [])
    | some user =>
      ({ st with onlineUsers := mapSet st.onlineUsers currentUserId { user with lastActive := now } },
        [])

/-- `socket.on('disconnect')`. -/
def onDisconnect (conn : Conn) (st : ServerState) : ServerState × List Emit :=
  match truthyId conn.currentUserId with
  | none => (st, [])
  | some currentUserId =>
    match mapGet st.onlineUsers currentUserId with
    | none => (st, [])
    | some user =>
      let wasInvisible := decide (user.status = Status.invisible)
      let reg := mapDelete st.onlineUsers currentUserId
      let st1 : ServerState :=
        { db := updateUserStatus st.db currentUserId Status.offline, onlineUsers := reg }
      if !wasInvisible then
        (st1, [Emit.userStatusChange currentUserId Status.offline,
               Emit.onlineUsers (visibleUsers reg)])
      else (st1, [])

/-- Liveness threshold of the pruner, in milliseconds. -/
def pruneThresholdMs : Int := 130000

/-- Period of the client heartbeat ticker (`App.jsx`), in milliseconds. -/
def heartbeatIntervalMs : Int := 30000

/-- The `for` loop of the idle pruner over the entries of `onlineUsers`; the accumulator is
the server state, the emissions so far and the `changed` flag. -/
def pruneLoop (now : Int) :
    List (Nat × UserData) → ServerState × List Emit × Bool → ServerState × List Emit × Bool
  | [], acc => acc
  | (userId, userData) :: rest, (st, out, changed) =>
    if now - userData.lastActive > pruneThresholdMs then
      pruneLoop now rest
        ({ db := updateUserStatus st.db userId Status.offline,
           onlineUsers := mapDelete st.onlineUsers userId },
         out ++ [Emit.userStatusChange userId Status.offline], true)
    else pruneLoop now rest (st, out, changed)

/-- One run of the server-side idle pruner (the `setInterval` callback) at time `now`. -/
def idlePruner (now : Int) (st : ServerState) : ServerState × List Emit :=
  match pruneLoop now st.onlineUsers (st, [], false) with
  | (st1, out, changed) =>
    if changed then (st1, out ++ [Emit.onlineUsers (visibleUsers st1.onlineUsers)])
    else (st1, out)

/-! ## `index.js`: HTTP presence views -/

/-- Lower-cased characters of a string (`toLowerCase`, ASCII letters). -/
def lowerChars (s : String) : List Char := s.data.map Char.toLower

/-- Test whether `p` is an initial segment of `l`. -/
def startsWith : List Char → List Char → Bool
  | [], _ => true
  | _ :: _, [] => false
  | a :: p, b :: l => decide (a = b) && startsWith p l

/-- `haystack.includes(needle)` on character lists. -/
def includes : List Char → List Char → Bool
  | [], needle => startsWith needle []
  | c :: hay, needle => startsWith needle (c :: hay) || includes hay needle

/-- A record returned by `/api/users/search`. -/
structure SearchResult where
  id : Nat
  username : String
  avatar : Option String
  status : Status
deriving DecidableEq, Repr

/-- `app.get('/api/users/search')` with query string `q` (absent is the empty string). -/
def apiUsersSearch (st : ServerState) (q : Option String) : List SearchResult :=
  (st.db.users.filter
      (fun u => includes (lowerChars u.username) (lowerChars (q.getD "")))).map
    (fun u =>
      { id := u.id, username := u.username, avatar := u.avatar,
        status := if mapHas st.onlineUsers u.id then Status.online else Status.offline })

/-- `app.get('/api/friends/:userId')`: the friend records with `onlineStatus` overridden by
the live registry status, 'invisible' shown as 'offline'. -/
def apiFriends (st : ServerState) (userId : Nat) : List FriendView :=
  (getFriends st.db userId).map
    (fun f =>
      let realStatus :=
        match mapGet st.onlineUsers f.id with
        | some onlineUser =>
          if onlineUser.status = Status.invisible then Status.offline else onlineUser.status
        | none => Status.offline
      { f with onlineStatus := realStatus })

/-- A server event together with the connection it arrives on. -/
inductive ServerEvent where
  | join (conn : Conn) (id : Nat) (now : Int)
  | setStatus (conn : Conn) (status : Status) (now : Int)
  | heartbeat (conn : Conn) (now : Int)
  | disconnect (conn : Conn)
  | prune (now : Int)
deriving DecidableEq, Repr

/-- Dispatch of one server event. -/
def handle (ev : ServerEvent) (st : ServerState) : ServerState × List Emit :=
  match ev with
  | ServerEvent.join conn id now => (onJoin conn id now st).2
  | ServerEvent.setStatus conn status now => onSetStatus conn status now st
  | ServerEvent.heartbeat conn now => onHeartbeat conn now st
  | ServerEvent.disconnect conn => onDisconnect conn st
  | ServerEvent.prune now => idlePruner now st

/-- A sequence of `set_status` events, each with its connection, requested status and
arrival time, processed in order; the emissions are concatenated. -/
def runSetStatus : List (Conn × Status × Int) → ServerState → ServerState × List Emit
  | [], st => (st, [])
  | (conn, status, now) :: rest, st =>
    let r := onSetStatus conn status now st
    let r2 := runSetStatus rest r.1
    (r2.1, r.2 ++ r2.2)

/-! ## `App.jsx`: idle detection and heartbeat -/

/-- The part of the client state the idle-detection effect reads and writes:
`user.status` (the manual preference) and `isIdle`. -/
structure MonitorState where
  userStatus : Option Status
  isIdle : Bool
deriving DecidableEq, Repr

/-- Relay emissions of the client monitor. -/
inductive ClientEmit where
  | setStatus (status : Status)
  | heartbeat
deriving DecidableEq, Repr

/-- `handleStatusChange(newStatus)` with a live socket: the explicit user choice. -/
def handleStatusChange (newStatus : Status) (s : MonitorState) :
    MonitorState × List ClientEmit :=
  ({ s with userStatus := some newStatus }, [ClientEmit.setStatus newStatus])

/-- The callback of `idleTimer` (fires after 120000 ms without activity). -/
def idleTimerFired (s : MonitorState) : MonitorState × List ClientEmit :=
  if s.userStatus = some Status.dnd ∨ s.userStatus = some Status.invisible then (s, [])
  else
    ({ userStatus := some Status.offline, isIdle := true },
      [ClientEmit.setStatus Status.offline])

/-- `resetIdleTimer()`: runs on every activity event and once when the effect starts. -/
def resetIdleTimer (s : MonitorState) : MonitorState × List ClientEmit :=
  if s.isIdle then
    let currentManualStatus := s.userStatus.getD Status.online
    if currentManualStatus ≠ Status.invisible then
      ({ userStatus := some currentManualStatus, isIdle := false },
        [ClientEmit.setStatus currentManualStatus])
    else ({ s with isIdle := false }, [ClientEmit.setStatus Status.invisible])
  else (s, [])

/-- The callback of `heartbeatInterval` (every 30000 ms). -/
def heartbeatTick (connected : Bool) (s : MonitorState) : MonitorState × List ClientEmit :=
  if connected && !s.isIdle then (s, [ClientEmit.heartbeat]) else (s, [])

/-! ## Auxiliary definitions used in the statements -/

/-- The `user_status_change` payloads of a list of emissions, in order. -/
def statusDeltas : List Emit → List (Nat × Status)
  | [] => []
  | Emit.userStatusChange userId status :: rest => (userId, status) :: statusDeltas rest
  | _ :: rest => statusDeltas rest

/-- The `online_users` payloads of a list of emissions, in order. -/
def snapshots : List Emit → List (List (Nat × Status))
  | [] => []
  | Emit.onlineUsers visible :: rest => visible :: snapshots rest
  | _ :: rest => snapshots rest

/-- The pruner's eviction test on one registry entry. -/
def isStale (now : Int) (e : Nat × UserData) : Bool :=
  decide (now - e.2.lastActive > 130000)

/-- Keys of the entries the pruner evicts, in iteration order. -/
def staleKeys (now : Int) (l : List (Nat × UserData)) : List Nat :=
  (l.filter (isStale now)).map Prod.fst

/-- Persisted status of user `id`: `none` when the id is unknown, `some none` when the
record has no status. -/
def persistedStatus (db : Db) (id : Nat) : Option (Option Status) :=
  (findUser db.users id).map (fun u => u.status)

/-! ## Concrete states -/

/-- A persisted user "Ana" (id 1) whose stored status is 'invisible'. -/
def exAna : User :=
  { id := 1, username := "Ana", password := "pw", avatar := none, status := some Status.invisible }

/-- A persisted user "Rui" (id 2) whose stored status is 'online'. -/
def exRui : User :=
  { id := 2, username := "Rui", password := "pw", avatar := none, status := some Status.online }

/-- The database with Ana and Rui, who are accepted friends. -/
def exDb : Db :=
  { users := [exAna, exRui], friendships := [{ user_a := 1, user_b := 2, pending := false }] }

/-- Registry entry of Ana, live status 'invisible', last active at time 0. -/
def exAnaEntry : UserData :=
  { socketId := "s1", lastActive := 0, username := "Ana", avatar := none,
    status := Status.invisible }

/-- Registry entry of Rui, live status 'online', last active at time 100000. -/
def exRuiEntry : UserData :=
  { socketId := "s2", lastActive := 100000, username := "Rui", avatar := none,
    status := Status.online }

/-- Both users connected: Ana invisible, Rui online. -/
def exState : ServerState :=
  { db := exDb, onlineUsers := [(1, exAnaEntry), (2, exRuiEntry)] }

/-- The connection of Ana after her join. -/
def exAnaConn : Conn := { socketId := "s1", currentUserId := some 1 }

/-- The connection of Rui after his join. -/
def exRuiConn : Conn := { socketId := "s2", currentUserId := some 2 }

/-! ## `App.jsx`: tiered media acquisition -/

/-- A media track: its identity and whether `kind` is 'video'. -/
structure Track where
  id : Nat
  isVideo : Bool
deriving DecidableEq, Repr

/-- A `MediaStream`: the list returned by `getTracks()`. -/
structure MediaStream where
  tracks : List Track
deriving DecidableEq, Repr

/-- Test `stream.getVideoTracks().length > 0`. -/
def MediaStream.hasVideo (s : MediaStream) : Bool := s.tracks.any (fun t => t.isVideo)

/-- The `video` member of a `getUserMedia` request: `false`, `true`, or the iOS camera object
with `facingMode: 'user'` and ideal 1280x720. -/
inductive VideoConstraint where
  | off
  | plain
  | facingUser
deriving DecidableEq, Repr

/-- A `getUserMedia` request: the video member and whether `audio` is the object with echo
cancellation, noise suppression and auto gain (`true`) or the boolean `true` (`false`). -/
structure Constraints where
  video : VideoConstraint
  audioEnhanced : Bool
deriving DecidableEq, Repr

/-- The error a rejected `getUserMedia` promise carries. -/
structure MediaError where
  name : String
  message : String
deriving DecidableEq, Repr

/-- Result of one capture request or of `getMediaStream`. -/
inductive MediaResult where
  | ok (stream : MediaStream)
  | error (err : MediaError)
deriving DecidableEq, Repr

/-- Behaviour of `navigator.mediaDevices.getUserMedia`: the answer to a request may depend on
the requests made before it. -/
abbrev Device := List Constraints → Constraints → MediaResult

/-- `getAdvancedConstraints()`. -/
def advancedConstraints (isIOS preferVideo : Bool) : Constraints :=
  { video :=
      if preferVideo then (if isIOS then VideoConstraint.facingUser else VideoConstraint.plain)
      else VideoConstraint.off,
    audioEnhanced := true }

/-- `getBasicConstraints()`. -/
def basicConstraints (preferVideo : Bool) : Constraints :=
  { video := if preferVideo then VideoConstraint.plain else VideoConstraint.off,
    audioEnhanced := false }

/-- `getAudioOnlyConstraints()`. -/
def audioOnlyConstraints : Constraints :=
  { video := VideoConstraint.off, audioEnhanced := false }

/-- The test on `err2.name` that lets `getMediaStream` fall back to audio only. -/
def isCameraIssue (err2 : MediaError) : Bool :=
  decide (err2.name = "NotFoundError") || decide (err2.name = "DevicesNotFoundError") ||
    decide (err2.name = "NotReadableError")

/-- `getMediaStream(preferVideo)`: the result of the promise and the capture requests made,
in order. -/
def getMediaStream (isIOS : Bool) (device : Device) (preferVideo : Bool) :
    MediaResult × List Constraints :=
  let first := if preferVideo then advancedConstraints isIOS preferVideo else audioOnlyConstraints
  match device [] first with
  | MediaResult.ok stream => (MediaResult.ok stream, [first])
  | MediaResult.error _ =>
    match device [first] (basicConstraints preferVideo) with
    | MediaResult.ok stream => (MediaResult.ok stream, [first, basicConstraints preferVideo])
    | MediaResult.error err2 =>
      if preferVideo && isCameraIssue err2 then
        (device [first, basicConstraints preferVideo] audioOnlyConstraints,
          [first, basicConstraints preferVideo, audioOnlyConstraints])
      else (MediaResult.error err2, [first, basicConstraints preferVideo])

/-- Failure reasons that indicate a missing or unavailable camera device: no device found
(`NotFoundError`, legacy `DevicesNotFoundError`) or device not readable (`NotReadableError`). -/
def cameraMissingOrUnavailable (err : MediaError) : Bool :=
  decide (err.name ∈ ["NotFoundError", "DevicesNotFoundError", "NotReadableError"])

/-- Tiered acquisition as the specification words it, for a call that wants video: tier 1 is
constrained video with enhanced audio, tier 2 is boolean video and audio, tier 3 is audio only
and is entered only when the tier-2 failure indicates a missing or unavailable camera; any
other tier-2 failure is the result. -/
def tieredReference (isIOS : Bool) (device : Device) : MediaResult × List Constraints :=
  let tier1 : Constraints :=
    { video := if isIOS then VideoConstraint.facingUser else VideoConstraint.plain,
      audioEnhanced := true }
  let tier2 : Constraints := { video := VideoConstraint.plain, audioEnhanced := false }
  let tier3 : Constraints := { video := VideoConstraint.off, audioEnhanced := false }
  match device [] tier1 with
  | MediaResult.ok stream => (MediaResult.ok stream, [tier1])
  | MediaResult.error _ =>
    match device [tier1] tier2 with
    | MediaResult.ok stream => (MediaResult.ok stream, [tier1, tier2])
    | MediaResult.error err2 =>
      if cameraMissingOrUnavailable err2 then (device [tier1, tier2] tier3, [tier1, tier2, tier3])
      else (MediaResult.error err2, [tier1, tier2])

/-! ## `App.jsx`: call state -/

/-- The `metadata` object of a PeerJS call. -/
structure CallMeta where
  type : Option String
  groupId : Option String
  username : Option String
  avatar : Option String
  userId : Option Nat
deriving DecidableEq, Repr

/-- A PeerJS call object: `id` is the identity of the object, `peer` the remote address. -/
structure MediaConnection where
  id : Nat
  peer : String
  metadata : Option CallMeta
deriving DecidableEq, Repr

/-- Value of `callState.incoming` or `callState.active`: null or undefined, a call object, or
the boolean `true` used for group calls. -/
inductive Slot where
  | empty
  | link (call : MediaConnection)
  | flag
deriving DecidableEq, Repr

/-- The `callState` object (`hasRemoteScreen`, which no handler reads, is left out).
Timer handles are positive numbers, so a stored handle is always truthy. -/
structure CallState where
  incoming : Slot
  active : Slot
  video : Bool
  incomingTimeout : Option Nat
  callerName : Option String
  callerAvatar : Option String
  callerUserId : Option Nat
  targetUserId : Option Nat
  isSimulated : Bool
  hasRemoteStream : Bool
  id : Option String
  type : Option String
deriving DecidableEq, Repr

/-- The call state without any call: `useState` initial value and the object `endCall` and the
`call_termination` listener store. -/
def idleCallState : CallState :=
  { incoming := Slot.empty, active := Slot.empty, video := false, incomingTimeout := none,
    callerName := none, callerAvatar := none, callerUserId := none, targetUserId := none,
    isSimulated := false, hasRemoteStream := false, id := none, type := none }

/-- The `toUserId` of a relay message: a user id, a peer address, or `undefined`. -/
inductive PartyId where
  | user (id : Nat)
  | peer (addr : String)
  | undefined
deriving DecidableEq, Repr

/-- The `status` of a `register_call_event` message. -/
inductive CallEventStatus where
  | busy
  | canceled
  | cancelledAt (dateStr timeStr : String)
deriving DecidableEq, Repr

/-- Relay messages the call code emits; `video` stands for `type: 'video'`, otherwise
`type: 'voice'`. -/
inductive RelayMsg where
  | registerCallEvent (fromUserId : Nat) (toUserId : PartyId) (video : Bool)
      (status : CallEventStatus)
  | callTermination (toUserId : PartyId)
  | callScreenShareChange (toUserId : Nat) (isSharing : Bool)
deriving DecidableEq, Repr

/-- Observable actions of the client call code, in program order. -/
inductive Effect where
  | emit (socket : Nat) (msg : RelayMsg)
  | setTimeout (timer : Nat) (ms : Nat)
  | clearTimeout (timer : Nat)
  | closeLink (link : Nat)
  | answerLink (link : Nat) (stream : MediaStream)
  | openLink (link : Nat) (peer : String) (type : String)
  | getMediaStream (preferVideo : Bool)
  | stopTrack (track : Nat)
  | disconnectSocket (socket : Nat)
  | alert (message : String)
  | thrown (error : String)
deriving DecidableEq, Repr

/-- Result of a handler: the call state it leaves, its effects, and the uncaught exception
that ended it early, if any (the state update is then not applied). -/
structure Outcome where
  state : CallState
  effects : List Effect
  error : Option String
deriving DecidableEq, Repr

/-- The exception of `socket.emit` when `socket` is null. -/
def nullSocketError : String := "TypeError: Cannot read properties of null (reading 'emit')"

/-- The exception of `callState.incoming.close()` when `incoming` is `true`. -/
def closeNotFunctionError : String := "TypeError: callState.incoming.close is not a function"

/-- Expression `slot.metadata?.userId`. -/
def Slot.metaUserId : Slot → Option Nat
  | Slot.link call => call.metadata.bind (fun m => m.userId)
  | _ => none

/-- Expression `slot.metadata?.type !== 'audio'`. -/
def Slot.isVideoCall : Slot → Bool
  | Slot.link call => decide (call.metadata.bind (fun m => m.type) ≠ some "audio")
  | _ => true

/-- Expression `callerUserId || metadata?.userId || peer`. -/
def callerParty (callerUserId metaUserId : Option Nat) (peer : Option String) : PartyId :=
  match truthyId callerUserId with
  | some id => PartyId.user id
  | none =>
    match truthyId metaUserId with
    | some id => PartyId.user id
    | none =>
      match peer with
      | some addr => PartyId.peer addr
      | none => PartyId.undefined

/-- The `stop()` calls of `stream.getTracks().forEach(t => t.stop())` on a stream reference. -/
def stopTracks : Option MediaStream → List Effect
  | some stream => stream.tracks.map (fun t => Effect.stopTrack t.id)
  | none => []

/-- The handler of `peer.on('call')`: `timer` is the handle `setTimeout` returns. The handler
defines `getMedia` but never calls it. -/
def onPeerCall (timer : Nat) (call : MediaConnection) (prev : CallState) :
    CallState × List Effect :=
  let videoCall := (Slot.link call).isVideoCall
  ({ prev with
      incoming := Slot.link call,
      incomingTimeout := some timer,
      video := videoCall,
      callerName :=
        match call.metadata.bind (fun m => m.username) with
        | some name => if name = "" then some "Unknown User" else some name
        | none => some "Unknown User",
      callerAvatar := call.metadata.bind (fun m => m.avatar),
      callerUserId := call.metadata.bind (fun m => m.userId) },
    [Effect.setTimeout timer 30000])

/-- The callback of the busy-timeout `callTimeout` created for `call`; `socket` is the value
the enclosing effect captured. -/
def callTimeoutFired (socket : Option Nat) (userId : Nat) (call : MediaConnection)
    (prev : CallState) : Outcome :=
  match prev.incoming with
  | Slot.link pending =>
    if pending.peer = call.peer then
      match socket with
      | none => { state := prev, effects := [], error := some nullSocketError }
      | some s =>
        { state := { prev with incoming := Slot.empty },
          effects :=
            [Effect.emit s (RelayMsg.registerCallEvent userId
                (callerParty prev.callerUserId (Slot.link call).metaUserId (some call.peer))
                (Slot.link call).isVideoCall CallEventStatus.busy),
             Effect.closeLink call.id],
          error := none }
    else { state := prev, effects := [], error := none }
  | _ => { state := prev, effects := [], error := none }

/-- What `answerCall` hands to the continuation of `getMediaStream`: the `callState` of the
render, the call and the group flag. -/
structure PendingAnswer where
  callState : CallState
  call : Slot
  isGroup : Bool
deriving DecidableEq, Repr

/-- The synchronous part of `answerCall()`: returns at once when nothing is pending, otherwise
calls `getMediaStream` and registers the continuation. -/
def answerCall (callState : CallState) : Option PendingAnswer × List Effect :=
  let isGroup := decide (callState.type = some "group")
  match callState.incoming with
  | Slot.empty => (none, [])
  | call =>
    let isVideoCall := if isGroup then callState.video else call.isVideoCall
    (some { callState := callState, call := call, isGroup := isGroup },
      [Effect.getMediaStream isVideoCall])

/-- The `.then` continuation of `answerCall` with the acquired stream (which is also stored
in `localStreamRef`); `prev` is the call state at that time. -/
def answerCallThen (pa : PendingAnswer) (stream : MediaStream) (prev : CallState) :
    CallState × List Effect :=
  let answering :=
    match pa.call with
    | Slot.link call => if pa.isGroup then [] else [Effect.answerLink call.id stream]
    | _ => []
  let clearing :=
    match pa.callState.incomingTimeout with
    | some timer => [Effect.clearTimeout timer]
    | none => []
  ({ prev with
      incoming := Slot.empty,
      incomingTimeout := none,
      active := if pa.isGroup then Slot.flag else pa.call,
      video := stream.hasVideo },
    answering ++ clearing)

/-- `handleMediaError(err)`. -/
def handleMediaError (err : MediaError) : List Effect :=
  if err.name = "NotAllowedError" then
    [Effect.alert "Please ALLOW Camera/Microphone access to call."]
  else if err.name = "NotFoundError" then [Effect.alert "No camera/microphone found."]
  else [Effect.alert ("Context blocked: " ++ err.message)]

/-- `rejectCall()`; `dateStr` and `timeStr` are the formatted clock values. -/
def rejectCall (socket : Option Nat) (userId : Nat) (dateStr timeStr : String)
    (callState : CallState) : Outcome :=
  let cleared : CallState := { callState with incoming := Slot.empty, incomingTimeout := none }
  let clearing :=
    match callState.incomingTimeout with
    | some timer => [Effect.clearTimeout timer]
    | none => []
  match callState.incoming with
  | Slot.empty => { state := cleared, effects := [], error := none }
  | Slot.link call =>
    match socket with
    | none => { state := callState, effects := clearing, error := some nullSocketError }
    | some s =>
      let toUserId := callerParty callState.callerUserId (Slot.link call).metaUserId (some call.peer)
      { state := cleared,
        effects := clearing ++
          [Effect.emit s (RelayMsg.registerCallEvent userId toUserId callState.video
              (CallEventStatus.cancelledAt dateStr timeStr)),
           Effect.emit s (RelayMsg.callTermination toUserId),
           Effect.closeLink call.id],
        error := none }
  | Slot.flag =>
    match socket with
    | none => { state := callState, effects := clearing, error := some nullSocketError }
    | some s =>
      let toUserId := callerParty callState.callerUserId none none
      { state := callState,
        effects := clearing ++
          [Effect.emit s (RelayMsg.registerCallEvent userId toUserId callState.video
              (CallEventStatus.cancelledAt dateStr timeStr)),
           Effect.emit s (RelayMsg.callTermination toUserId)],
        error := some closeNotFunctionError }

/-- The three stream references of `App`. -/
structure StreamRefs where
  localStream : Option MediaStream
  remoteStream : Option MediaStream
  remoteScreenStream : Option MediaStream
deriving DecidableEq, Repr

/-- `endCall()` with the `callState` its closure sees. -/
def endCall (socket : Option Nat) (userId : Nat) (refs : StreamRefs) (callState : CallState) :
    Outcome :=
  let stops := stopTracks refs.localStream ++ stopTracks refs.remoteStream ++
    stopTracks refs.remoteScreenStream
  match callState.active with
  | Slot.empty => { state := idleCallState, effects := stops, error := none }
  | active =>
    let otherPartyId := (truthyId callState.targetUserId).orElse
      (fun _ => truthyId callState.callerUserId)
    let closing :=
      match active with
      | Slot.link call => [Effect.closeLink call.id]
      | _ => []
    match otherPartyId with
    | none => { state := idleCallState, effects := closing ++ stops, error := none }
    | some other =>
      match socket with
      | none => { state := callState, effects := [], error := some nullSocketError }
      | some s =>
        let canceling :=
          match truthyId callState.targetUserId with
          | some target =>
            if callState.hasRemoteStream then []
            else [Effect.emit s (RelayMsg.registerCallEvent userId (PartyId.user target)
              callState.video CallEventStatus.canceled)]
          | none => []
        { state := idleCallState,
          effects := [Effect.emit s (RelayMsg.callTermination (PartyId.user other))] ++
            canceling ++ closing ++ stops,
          error := none }

/-- The `call_termination` listener; `captured` is the `callState` of the render in which the
listeners effect (dependencies `[socket]`) ran. -/
def onCallTermination (captured : CallState) (localStream : Option MediaStream) :
    CallState × List Effect :=
  let clearing :=
    match captured.incomingTimeout with
    | some timer => [Effect.clearTimeout timer]
    | none => []
  let closingActive :=
    match captured.active with
    | Slot.link call => [Effect.closeLink call.id]
    | _ => []
  let closingIncoming :=
    match captured.incoming with
    | Slot.link call => [Effect.closeLink call.id]
    | _ => []
  (idleCallState, clearing ++ closingActive ++ closingIncoming ++ stopTracks localStream)

/-! ## The client as a transition system -/

/-- A pending busy-timeout with the values its callback closes over. -/
structure BusyTimer where
  id : Nat
  call : MediaConnection
  socket : Option Nat
deriving DecidableEq, Repr

/-- The client: React state, references, the values captured by live closures, pending
timers and the log of effects. `peerSocket` is the `socket` the handlers of the live peer
captured, `listenerCallState` the `callState` the socket listeners captured. -/
structure ClientWorld where
  userId : Nat
  socket : Option Nat
  peerSocket : Option Nat
  callState : CallState
  listenerCallState : CallState
  timers : List BusyTimer
  nextTimer : Nat
  pendingAnswer : Option PendingAnswer
  refs : StreamRefs
  screenStream : Option MediaStream
  screenCall : Option Nat
  isSharingScreen : Bool
  effects : List Effect
deriving DecidableEq, Repr

/-- The client right after login, before any effect has run. -/
def initialWorld (userId : Nat) : ClientWorld :=
  { userId := userId, socket := none, peerSocket := none, callState := idleCallState,
    listenerCallState := idleCallState, timers := [], nextTimer := 1, pendingAnswer := none,
    refs := { localStream := none, remoteStream := none, remoteScreenStream := none },
    screenStream := none, screenCall := none, isSharingScreen := false, effects := [] }

/-- Events of the client. -/
inductive ClientEvent where
  | socketPeerInit (newSocket : Nat)
  | incomingLink (call : MediaConnection)
  | timerFired (timer : Nat)
  | answer
  | mediaResolved (stream : MediaStream)
  | mediaRejected (err : MediaError)
  | remoteStream (stream : MediaStream)
  | reject (dateStr timeStr : String)
  | endCall
  | callTermination
  | screenShareStarted (stream : MediaStream) (link : Nat)
  | screenShareStopped
deriving DecidableEq, Repr

/-- Timers cleared by a list of effects. -/
def clearedTimers : List Effect → List Nat
  | [] => []
  | Effect.clearTimeout timer :: rest => timer :: clearedTimers rest
  | _ :: rest => clearedTimers rest

/-- Store the outcome of a handler: state, effects, the exception if any, and the timers it
cleared. -/
def applyOutcome (w : ClientWorld) (o : Outcome) : ClientWorld :=
  { w with
    callState := o.state,
    timers := w.timers.filter (fun t => decide (t.id ∉ clearedTimers o.effects)),
    effects := w.effects ++ o.effects ++
      (match o.error with
       | some e => [Effect.thrown e]
       | none => []) }

/-- Expression `callState.targetUserId || callState.callerUserId` of `CallModal`. -/
def otherPartyId (callState : CallState) : Option Nat :=
  (truthyId callState.targetUserId).orElse (fun _ => truthyId callState.callerUserId)

/-- Expression `callState.active?.peer || callState.incoming?.peer`. -/
def targetPeerId (callState : CallState) : Option String :=
  let peerOf : Slot → Option String := fun slot =>
    match slot with
    | Slot.link call => if call.peer = "" then none else some call.peer
    | _ => none
  (peerOf callState.active).orElse (fun _ => peerOf callState.incoming)

/-- One step of the client. -/
def clientStep (ev : ClientEvent) (w : ClientWorld) : ClientWorld :=
  match ev with
  | ClientEvent.socketPeerInit newSocket =>
    { w with
      peerSocket := w.socket,
      socket := some newSocket,
      listenerCallState := w.callState,
      effects := w.effects ++
        (match w.socket with
         | some old => [Effect.disconnectSocket old]
         | none => []) }
  | ClientEvent.incomingLink call =>
    let r := onPeerCall w.nextTimer call w.callState
    { w with
      callState := r.1,
      timers := w.timers ++ [{ id := w.nextTimer, call := call, socket := w.peerSocket }],
      nextTimer := w.nextTimer + 1,
      effects := w.effects ++ r.2 }
  | ClientEvent.timerFired timer =>
    match w.timers.find? (fun t => decide (t.id = timer)) with
    | none => w
    | some t =>
      applyOutcome { w with timers := w.timers.filter (fun t2 => decide (t2.id ≠ timer)) }
        (callTimeoutFired t.socket w.userId t.call w.callState)
  | ClientEvent.answer =>
    match answerCall w.callState with
    | (none, _) => w
    | (some pa, effs) => { w with pendingAnswer := some pa, effects := w.effects ++ effs }
  | ClientEvent.mediaResolved stream =>
    match w.pendingAnswer with
    | none => w
    | some pa =>
      let r := answerCallThen pa stream w.callState
      applyOutcome
        { w with pendingAnswer := none, refs := { w.refs with localStream := some stream } }
        { state := r.1, effects := r.2, error := none }
  | ClientEvent.mediaRejected err =>
    match w.pendingAnswer with
    | none => w
    | some _ => { w with pendingAnswer := none, effects := w.effects ++ handleMediaError err }
  | ClientEvent.remoteStream stream =>
    { w with
      refs := { w.refs with remoteStream := some stream },
      callState := { w.callState with hasRemoteStream := true } }
  | ClientEvent.reject dateStr timeStr =>
    applyOutcome w (rejectCall w.socket w.userId dateStr timeStr w.callState)
  | ClientEvent.endCall => applyOutcome w (endCall w.socket w.userId w.refs w.callState)
  | ClientEvent.callTermination =>
    match w.socket with
    | none => w
    | some _ =>
      let r := onCallTermination w.listenerCallState w.refs.localStream
      applyOutcome w { state := r.1, effects := r.2, error := none }
  | ClientEvent.screenShareStarted stream link =>
    let dial :=
      match targetPeerId w.callState with
      | some addr => [Effect.openLink link addr "screen"]
      | none => []
    let notify :=
      match otherPartyId w.callState, w.socket with
      | some other, some s => [Effect.emit s (RelayMsg.callScreenShareChange other true)]
      | _, _ => []
    { w with
      screenStream := some stream,
      screenCall := (targetPeerId w.callState).map (fun _ => link),
      isSharingScreen := true,
      effects := w.effects ++ dial ++ notify }
  | ClientEvent.screenShareStopped =>
    let closing :=
      match w.screenCall with
      | some link => [Effect.closeLink link]
      | none => []
    let notify :=
      match otherPartyId w.callState, w.socket with
      | some other, some s => [Effect.emit s (RelayMsg.callScreenShareChange other false)]
      | _, _ => []
    { w with
      screenStream := none,
      screenCall := none,
      isSharingScreen := false,
      effects := w.effects ++ stopTracks w.screenStream ++ closing ++ notify }

/-- Run a sequence of events. -/
def clientRun : List ClientEvent → ClientWorld → ClientWorld
  | [], w => w
  | ev :: rest, w => clientRun rest (clientStep ev w)

/-- A track is live after a log of effects when the log holds no `stop()` of it. -/
def trackLive (log : List Effect) (track : Nat) : Bool :=
  decide (Effect.stopTrack track ∉ log)

/-- Test for a `register_call_event` message with status 'Canceled'. -/
def isCanceledRecord : Effect → Bool
  | Effect.emit _ (RelayMsg.registerCallEvent _ _ _ CallEventStatus.canceled) => true
  | _ => false

/-- The `register_call_event` messages with status 'Canceled' in a list of effects. -/
def canceledRecords (log : List Effect) : List Effect := log.filter isCanceledRecord

/-! ## Concrete calls -/

/-- An incoming video call from Rui (peer address "peer-rui"). -/
def exCall1 : MediaConnection :=
  { id := 1, peer := "peer-rui",
    metadata := some { type := some "video", groupId := none, username := some "Rui",
                       avatar := none, userId := some 2 } }

/-- A later call object from the same peer address. -/
def exCall2 : MediaConnection :=
  { id := 2, peer := "peer-rui",
    metadata := some { type := some "video", groupId := none, username := some "Rui",
                       avatar := none, userId := some 2 } }

/-- A camera and microphone stream. -/
def exLocalStream : MediaStream :=
  { tracks := [{ id := 10, isVideo := true }, { id := 11, isVideo := false }] }

/-- The remote party's stream. -/
def exRemoteStream : MediaStream :=
  { tracks := [{ id := 20, isVideo := true }, { id := 21, isVideo := false }] }

/-- A display-capture stream. -/
def exDisplayStream : MediaStream := { tracks := [{ id := 30, isVideo := true }] }

/-- A device that rejects the constrained request as over-constrained and the boolean
request with a permission denial. -/
def exDeniedDevice : Device := fun _ c =>
  if c.audioEnhanced then
    MediaResult.error { name := "OverconstrainedError", message := "constraints" }
  else MediaResult.error { name := "NotAllowedError", message := "denied" }

/-- A call state with Rui's call pending under busy-timeout 1. -/
def exRinging : CallState := (onPeerCall 1 exCall1 idleCallState).1

/-- An outgoing call to user 2 that has not received a remote stream. -/
def exOutgoing : CallState :=
  { idleCallState with active := Slot.link exCall2, video := true, targetUserId := some 2 }

/-! ## `App.jsx`: outgoing calls and group call announcements -/

/-- The argument of the `get_peer_id` callback: no response, a response without `peerId`
(undefined or null), or a response with a `peerId` string. -/
abbrev PeerIdResponse := Option (Option String)

/-- Test `!response || !response.peerId || response.peerId === 'null'`. -/
def noPeerId : PeerIdResponse → Bool
  | none => true
  | some none => true
  | some (some peerId) => decide (peerId = "") || decide (peerId = "null")

/-- The fields of `selectedUser` that `startCall` reads. -/
structure SelectedUser where
  username : String
  avatar : Option String
deriving DecidableEq, Repr

/-- The `get_peer_id` callback of `startCall` for a direct call; `timer` is the handle of the
ring timer. Without an address it stores the simulated call and starts the 6000 ms timer; with
an address it calls `getMediaStream(video)` and leaves the call state to the continuation. -/
def startCallOnResponse (timer : Nat) (response : PeerIdResponse) (targetUserId : Nat)
    (video : Bool) (selectedUser : SelectedUser) (prev : CallState) : CallState × List Effect :=
  if noPeerId response then
    ({ idleCallState with
        incoming := Slot.empty,
        active := Slot.flag,
        video := video,
        callerName := some selectedUser.username,
        callerAvatar := selectedUser.avatar,
        targetUserId := some targetUserId,
        isSimulated := true },
      [Effect.setTimeout timer 6000])
  else (prev, [Effect.getMediaStream video])

/-- The callback of the ring timer of a simulated call. Its `socket` passed the `!socket`
guard of `startCall`, so it is not null. -/
def simulatedRingFired (s userId targetUserId : Nat) (video : Bool) (prev : CallState) :
    Outcome :=
  if prev.isSimulated then
    { state := idleCallState,
      effects :=
        [Effect.emit s (RelayMsg.registerCallEvent userId (PartyId.user targetUserId) video
          CallEventStatus.busy)],
      error := none }
  else { state := prev, effects := [], error := none }

/-- The `group_call_started` listener: the announcement of another user stores a pending
group call whose `incoming` is the boolean `true`. -/
def onGroupCallStarted (userId : Nat) (groupId : String) (fromUserId : Nat)
    (prev : CallState) : CallState :=
  if fromUserId = userId then prev
  else
    { idleCallState with
      id := some groupId,
      type := some "group",
      callerName := some "Incoming Group Call...",
      incoming := Slot.flag,
      video := false }

/-- The call state the group branch of `startCall` stores for the initiator. -/
def groupCallState (groupId : String) : CallState :=
  { idleCallState with
    id := some groupId,
    type := some "group",
    callerName := some "Group Call",
    active := Slot.flag,
    video := false }

/-! ## `CallModal.jsx`: group call engine -/

/-- Effects of the group engine. -/
inductive GroupEffect where
  | groupCallPeerId (socket : Nat) (groupId : String) (userId : Nat) (peerId : String)
  | dial (link : Nat) (remotePeerId : String) (remoteUserId : Nat)
  | answerLink (link : Nat)
  | stopTrack (track : Nat)
  | closeLink (link : Nat)
  | thrown (error : String)
deriving DecidableEq, Repr

/-- An entry of `remoteParticipantsRef.current` (the flags `isSpeaking` and `isMuted`, both
stored as `false`, are left out). -/
structure Participant where
  stream : Option MediaStream
  username : Option String
  avatar : Option String
deriving DecidableEq, Repr

/-- The object `remoteParticipantsRef.current`: keys are user ids, `none` stands for the key
"undefined"; the list is in the enumeration order of the object (integer keys ascending, then
the key "undefined"). -/
abbrev Roster := List (Option Nat × Participant)

/-- `remoteParticipantsRef.current[key]`. -/
def rosterGet : Roster → Option Nat → Option Participant
  | [], _ => none
  | (k, p) :: rest, key => if k = key then some p else rosterGet rest key

/-- Enumeration order of two distinct keys. -/
def keyBefore : Option Nat → Option Nat → Bool
  | some a, some b => decide (a < b)
  | some _, none => true
  | none, _ => false

/-- `remoteParticipantsRef.current[key] = participant`. -/
def rosterSet : Roster → Option Nat → Participant → Roster
  | [], key, participant => [(key, participant)]
  | (k, p) :: rest, key, participant =>
    if k = key then (k, participant) :: rest
    else if keyBefore key k then (key, participant) :: (k, p) :: rest
    else (k, p) :: rosterSet rest key participant

/-- `delete remoteParticipantsRef.current[key]`. -/
def rosterDelete (roster : Roster) (key : Option Nat) : Roster :=
  roster.filter (fun e => decide (e.1 ≠ key))

/-- The payload of `group_peer_discovered`. -/
structure Announcement where
  userId : Nat
  peerId : String
  username : Option String
  avatar : Option String
deriving DecidableEq, Repr

/-- The `stream` handler registered on an outbound group link: the link and the values of the
announcement it closes over. -/
structure PendingDial where
  link : Nat
  userId : Nat
  username : String
  avatar : Option String
deriving DecidableEq, Repr

/-- `handlePeerDiscovered`: `link` is what `peer.call` returns (a call object or undefined). -/
def handlePeerDiscovered (currentUserId : Nat) (link : Option Nat) (ann : Announcement)
    (roster : Roster) : List GroupEffect × Option PendingDial :=
  if ann.userId = currentUserId then ([], none)
  else if (rosterGet roster (some ann.userId)).isSome then ([], none)
  else
    match link with
    | none => ([], none)
    | some l =>
      ([GroupEffect.dial l ann.peerId ann.userId],
        some { link := l, userId := ann.userId,
               username :=
                 match ann.username with
                 | some name => if name = "" then "User " ++ toString ann.userId else name
                 | none => "User " ++ toString ann.userId,
               avatar := ann.avatar })

/-- The `stream` handler of an outbound group link. -/
def onDialStream (pd : PendingDial) (stream : MediaStream) (roster : Roster) : Roster :=
  rosterSet roster (some pd.userId)
    { stream := some stream, username := some pd.username, avatar := pd.avatar }

/-- `handleIncoming` of `CallModal`: a link whose `metadata?.groupId` equals `callState?.id`
is answered at once with the local stream. -/
def handleIncoming (sessionId : Option String) (call : MediaConnection) : List GroupEffect :=
  if call.metadata.bind (fun m => m.groupId) = sessionId then
    match call.metadata with
    | none =>
      [GroupEffect.thrown "TypeError: Cannot read properties of undefined (reading 'username')"]
    | some _ => [GroupEffect.answerLink call.id]
  else []

/-- The `stream` handler of an answered inbound group link. -/
def onIncomingStream (call : MediaConnection) (stream : MediaStream) (roster : Roster) :
    Roster :=
  rosterSet roster (call.metadata.bind (fun m => m.userId))
    { stream := some stream, username := call.metadata.bind (fun m => m.username),
      avatar := none }

/-- `handlePeerLeave`: the entry is deleted from the roster (and from the React state that
mirrors it). -/
def handlePeerLeave (userId : Nat) (roster : Roster) : Roster × List GroupEffect :=
  (rosterDelete roster (some userId), [])

/-- The `forEach` of the unmount cleanup over `Object.values` of the roster. -/
def teardownStops : Roster → List GroupEffect
  | [] => []
  | (_, p) :: rest =>
    (match p.stream with
     | some stream => stream.tracks.map (fun t => GroupEffect.stopTrack t.id)
     | none => []) ++ teardownStops rest

/-- The unmount cleanup of `CallModal`. -/
def groupTeardown (roster : Roster) : Roster × List GroupEffect :=
  ([], teardownStops roster)

/-- The group engine of one participant: identity, session, roster, the outbound links that
wait for their `stream` event, the next link identity and the effects so far. -/
structure GroupEngine where
  currentUserId : Nat
  peerId : String
  groupId : String
  roster : Roster
  pending : List PendingDial
  nextLink : Nat
  effects : List GroupEffect
deriving DecidableEq, Repr

/-- Events of the group engine. -/
inductive GroupEvent where
  | peerDiscovered (ann : Announcement)
  | dialStream (link : Nat) (stream : MediaStream)
  | incomingLink (call : MediaConnection)
  | incomingStream (call : MediaConnection) (stream : MediaStream)
  | peerLeave (userId : Nat)
  | teardown
deriving DecidableEq, Repr

/-- One step of the group engine. -/
def groupStep (ev : GroupEvent) (e : GroupEngine) : GroupEngine :=
  match ev with
  | GroupEvent.peerDiscovered ann =>
    match handlePeerDiscovered e.currentUserId (some e.nextLink) ann e.roster with
    | (effs, some pd) =>
      { e with pending := e.pending ++ [pd], nextLink := e.nextLink + 1,
               effects := e.effects ++ effs }
    | (effs, none) => { e with effects := e.effects ++ effs }
  | GroupEvent.dialStream link stream =>
    match e.pending.find? (fun pd => decide (pd.link = link)) with
    | some pd => { e with roster := onDialStream pd stream e.roster }
    | none => e
  | GroupEvent.incomingLink call =>
    { e with effects := e.effects ++ handleIncoming (some e.groupId) call }
  | GroupEvent.incomingStream call stream =>
    if call.metadata.bind (fun m => m.groupId) = some e.groupId then
      { e with roster := onIncomingStream call stream e.roster }
    else e
  | GroupEvent.peerLeave userId =>
    { e with roster := (handlePeerLeave userId e.roster).1,
             effects := e.effects ++ (handlePeerLeave userId e.roster).2 }
  | GroupEvent.teardown =>
    { e with roster := (groupTeardown e.roster).1,
             effects := e.effects ++ (groupTeardown e.roster).2 }

/-- Run a sequence of events on one engine. -/
def groupRun : List GroupEvent → GroupEngine → GroupEngine
  | [], e => e
  | ev :: rest, e => groupRun rest (groupStep ev e)

/-- A fresh engine: what the group effect sets up, after its `group_call_peer_id` emission. -/
def groupEngineStart (socket userId : Nat) (peerId groupId : String) (firstLink : Nat) :
    GroupEngine :=
  { currentUserId := userId, peerId := peerId, groupId := groupId, roster := [],
    pending := [], nextLink := firstLink,
    effects := [GroupEffect.groupCallPeerId socket groupId userId peerId] }

/-- The outbound links an engine created to user `remote`. -/
def dialsTo (e : GroupEngine) (remote : Nat) : List GroupEffect :=
  e.effects.filter (fun eff =>
    match eff with
    | GroupEffect.dial _ _ r => decide (r = remote)
    | _ => false)

/-- The participants of a session, each with its engine. The server relays
`group_call_peer_id` as `group_peer_discovered` to the whole room, the sender included. -/
abbrev Mesh := List GroupEngine

/-- The announcement an engine sends. -/
def announcementOf (e : GroupEngine) : Announcement :=
  { userId := e.currentUserId, peerId := e.peerId, username := none, avatar := none }

/-- Delivery of the announcement of `announcer` to every participant of the session. -/
def meshBroadcast (announcer : GroupEngine) (mesh : Mesh) : Mesh :=
  mesh.map (groupStep (GroupEvent.peerDiscovered (announcementOf announcer)))

/-- Every participant of the mesh announces once, in list order, and every announcement is
delivered to every participant. -/
def meshAnnounceAll (mesh : Mesh) : Mesh :=
  mesh.foldl (fun m announcer => meshBroadcast announcer m) mesh

/-- The primary links between two participants: the links each of them dialled to the
other. -/
def primaryLinks (mesh : Mesh) (a b : Nat) : List GroupEffect :=
  (mesh.filter (fun e => decide (e.currentUserId = a))).flatMap (fun e => dialsTo e b) ++
    (mesh.filter (fun e => decide (e.currentUserId = b))).flatMap (fun e => dialsTo e a)

/-! ## Concrete group sessions and further calls -/

/-- The announcement of user 2. -/
def exAnn2 : Announcement :=
  { userId := 2, peerId := "peer-2", username := some "Rui", avatar := none }

/-- The engine of user 1 in session "g1". -/
def exEngine1 : GroupEngine := groupEngineStart 1 1 "peer-1" "g1" 100

/-- The engine of user 2 in session "g1". -/
def exEngine2 : GroupEngine := groupEngineStart 2 2 "peer-2" "g1" 200

/-- A roster with the participants 2 (tracks 40 and 41) and 3 (track 50). -/
def exRoster : Roster :=
  [(some 2, { stream := some { tracks := [{ id := 40, isVideo := false },
                                            { id := 41, isVideo := true }] },
              username := some "Rui", avatar := none }),
   (some 3, { stream := some { tracks := [{ id := 50, isVideo := false }] },
              username := some "Eva", avatar := none })]

/-- A call from another peer address. -/
def exCall3 : MediaConnection :=
  { id := 3, peer := "peer-eva",
    metadata := some { type := some "video", groupId := none, username := some "Eva",
                       avatar := none, userId := some 3 } }

/-- The secondary link of a screen share: the metadata holds the type 'screen' only. -/
def exScreenCall : MediaConnection :=
  { id := 4, peer := "peer-rui",
    metadata := some { type := some "screen", groupId := none, username := none,
                       avatar := none, userId := none } }

/-- A mesh link of the group session "g1", dialled by user 2. -/
def exMeshCall : MediaConnection :=
  { id := 5, peer := "peer-2",
    metadata := some { type := some "voice", groupId := some "g1", username := some "Rui",
                       avatar := none, userId := some 2 } }

/-- The call state after Rui's call was answered. -/
def exAnswered : CallState :=
  (answerCallThen { callState := exRinging, call := Slot.link exCall1, isGroup := false }
    exLocalStream exRinging).1

/-- A client in the group call "g1" it started, with the socket set. -/
def exGroupWorld : ClientWorld :=
  { initialWorld 1 with socket := some 1, callState := groupCallState "g1" }

/-! ## Lemmas on the map operations -/

theorem mapGet_mapSet_self (m : OnlineUsers) (k : Nat) (v : UserData) :
    mapGet (mapSet m k v) k = some v := by
  induction m with
  | nil => simp [mapSet, mapGet]
  | cons p m ih =>
    obtain ⟨k1, v1⟩ := p
    by_cases h : k1 = k
    · simp [mapSet, mapGet, h]
    · simp [mapSet, mapGet, h, ih]

theorem mapGet_mapSet_ne (m : OnlineUsers) (k k2 : Nat) (v : UserData) (hne : k2 ≠ k) :
    mapGet (mapSet m k v) k2 = mapGet m k2 := by
  induction m with
  | nil =>
    have : ¬ k = k2 := fun h => hne h.symm
    simp [mapSet, mapGet, this]
  | cons p m ih =>
    obtain ⟨k1, v1⟩ := p
    by_cases h : k1 = k
    · subst h
      have : ¬ k1 = k2 := fun h => hne h.symm
      simp [mapSet, mapGet, this]
    · by_cases h2 : k1 = k2
      · subst h2
        simp [mapSet, mapGet, h]
      · simp [mapSet, mapGet, h, h2, ih]

theorem mapGet_isSome_iff (m : OnlineUsers) (k : Nat) :
    (mapGet m k).isSome = true ↔ k ∈ m.map Prod.fst := by
  induction m with
  | nil => simp [mapGet]
  | cons p m ih =>
    obtain ⟨k1, v1⟩ := p
    by_cases h : k1 = k
    · simp [mapGet, h]
    · have h2 : ¬ k = k1 := fun e => h e.symm
      simp only [mapGet, h, if_false, ih, List.map_cons, List.mem_cons, h2, false_or]

theorem mapGet_some_mem (m : OnlineUsers) (k : Nat) (v : UserData)
    (h : mapGet m k = some v) : (k, v) ∈ m := by
  induction m with
  | nil => simp [mapGet] at h
  | cons p m ih =>
    obtain ⟨k1, v1⟩ := p
    by_cases hk : k1 = k
    · simp [mapGet, hk] at h
      simp [hk, h]
    · simp [mapGet, hk] at h
      exact List.mem_cons_of_mem _ (ih h)

theorem mem_mapGet_of_nodup (m : OnlineUsers) (hnd : NodupKeys m) (k : Nat) (v : UserData)
    (h : (k, v) ∈ m) : mapGet m k = some v := by
  induction m with
  | nil => simp at h
  | cons p m ih =>
    obtain ⟨k1, v1⟩ := p
    have hnd2 : k1 ∉ m.map Prod.fst ∧ NodupKeys m := by
      simpa [NodupKeys] using hnd
    rcases List.mem_cons.1 h with heq | hmem
    · cases heq
      simp [mapGet]
    · have hk : k ∈ m.map Prod.fst := List.mem_map.2 ⟨(k, v), hmem, rfl⟩
      have hne : ¬ k1 = k := fun e => hnd2.1 (e ▸ hk)
      simp [mapGet, hne, ih hnd2.2 hmem]

theorem keys_mapSet_of_mem (m : OnlineUsers) (k : Nat) (v : UserData)
    (h : k ∈ m.map Prod.fst) : (mapSet m k v).map Prod.fst = m.map Prod.fst := by
  induction m with
  | nil => simp at h
  | cons p m ih =>
    obtain ⟨k1, v1⟩ := p
    by_cases hk : k1 = k
    · simp [mapSet, hk]
    · have h2 : k ∈ m.map Prod.fst := by
        rcases List.mem_cons.1 h with e | e
        · exact absurd e.symm hk
        · exact e
      simp [mapSet, hk, ih h2]

theorem keys_mapSet_of_not_mem (m : OnlineUsers) (k : Nat) (v : UserData)
    (h : k ∉ m.map Prod.fst) : (mapSet m k v).map Prod.fst = m.map Prod.fst ++ [k] := by
  induction m with
  | nil => simp [mapSet]
  | cons p m ih =>
    obtain ⟨k1, v1⟩ := p
    have hk : ¬ k1 = k := fun e => h (by simp [e])
    have h2 : k ∉ m.map Prod.fst := fun e => h (List.mem_cons_of_mem _ e)
    simp [mapSet, hk, ih h2]

theorem nodupKeys_mapSet (m : OnlineUsers) (k : Nat) (v : UserData) (hnd : NodupKeys m) :
    NodupKeys (mapSet m k v) := by
  unfold NodupKeys at *
  by_cases h : k ∈ m.map Prod.fst
  · rw [keys_mapSet_of_mem m k v h]; exact hnd
  · rw [keys_mapSet_of_not_mem m k v h]
    exact List.Nodup.append hnd (List.nodup_singleton k) (by simpa using h)

theorem nodupKeys_filter (m : OnlineUsers) (p : Nat × UserData → Bool) (hnd : NodupKeys m) :
    NodupKeys (m.filter p) := by
  unfold NodupKeys at *
  exact List.Nodup.sublist (List.Sublist.map _ (List.filter_sublist m)) hnd

theorem nodupKeys_mapDelete (m : OnlineUsers) (k : Nat) (hnd : NodupKeys m) :
    NodupKeys (mapDelete m k) :=
  nodupKeys_filter m _ hnd

theorem mem_visibleUsers (m : OnlineUsers) (id : Nat) (s : Status) :
    (id, s) ∈ visibleUsers m ↔ ∃ e, (id, e) ∈ m ∧ e.status = s ∧ s ≠ Status.invisible := by
  unfold visibleUsers
  constructor
  · intro h
    obtain ⟨⟨k, e⟩, hmem, heq⟩ := List.mem_map.1 h
    simp only [List.mem_filter, decide_eq_true_eq] at hmem
    simp only [Prod.mk.injEq] at heq
    obtain ⟨rfl, rfl⟩ := heq
    exact ⟨e, hmem.1, rfl, hmem.2⟩
  · rintro ⟨e, hmem, rfl, hne⟩
    exact List.mem_map.2 ⟨(id, e), by simp [List.mem_filter, hmem, hne], rfl⟩

theorem nodup_keys_visibleUsers (m : OnlineUsers) (hnd : NodupKeys m) :
    ((visibleUsers m).map Prod.fst).Nodup := by
  unfold visibleUsers
  rw [List.map_map]
  have : (Prod.fst ∘ fun e : Nat × UserData => (e.1, e.2.status)) = Prod.fst := by
    funext e; rfl
  rw [this]
  exact nodupKeys_filter m _ hnd

/-! ## Lemmas on the persisted status -/

theorem findUser_updateUsers_self (users : List User) (id : Nat) (s : Status) :
    findUser (updateUsers users id s) id =
      (findUser users id).map (fun u => { u with status := some s }) := by
  induction users with
  | nil => simp [updateUsers, findUser]
  | cons u us ih =>
    unfold findUser at ih ⊢
    by_cases h : u.id = id
    · simp [updateUsers, h, List.find?]
    · simp [updateUsers, h, List.find?, ih]

theorem findUser_updateUsers_ne (users : List User) (id id2 : Nat) (s : Status)
    (hne : id2 ≠ id) : findUser (updateUsers users id s) id2 = findUser users id2 := by
  induction users with
  | nil => simp [updateUsers, findUser]
  | cons u us ih =>
    unfold findUser at ih ⊢
    by_cases h : u.id = id
    · subst h
      have h2 : ¬ u.id = id2 := fun e => hne e.symm
      simp [updateUsers, List.find?, h2]
    · by_cases h2 : u.id = id2
      · subst h2
        simp [updateUsers, h, List.find?]
      · simp [updateUsers, h, List.find?, h2, ih]

theorem persistedStatus_update_self (db : Db) (id : Nat) (s : Status) :
    persistedStatus (updateUserStatus db id s) id =
      (persistedStatus db id).map (fun _ => some s) := by
  unfold persistedStatus updateUserStatus
  simp only [findUser_updateUsers_self, Option.map_map]
  rfl

theorem persistedStatus_update_ne (db : Db) (id id2 : Nat) (s : Status) (hne : id2 ≠ id) :
    persistedStatus (updateUserStatus db id s) id2 = persistedStatus db id2 := by
  unfold persistedStatus updateUserStatus
  simp only [findUser_updateUsers_ne _ _ _ _ hne]

theorem createUser_id_pos (db db2 : Db) (username password : String) (u : User)
    (h : createUser db username password = Except.ok (db2, u)) : 0 < u.id := by
  unfold createUser at h
  split at h
  · cases h
  · simp only [Except.ok.injEq, Prod.mk.injEq] at h
    rw [← h.2]
    exact Nat.succ_pos _

/-! ## Lemmas on `set_status` -/

theorem truthyId_pos (uid : Nat) (h : 0 < uid) : truthyId (some uid) = some uid := by
  cases uid with
  | zero => exact absurd h (by decide)
  | succ n => rfl

theorem onSetStatus_registered (conn : Conn) (status : Status) (now : Int) (st : ServerState)
    (uid : Nat) (user : UserData) (hconn : conn.currentUserId = some uid) (hpos : 0 < uid)
    (hget : mapGet st.onlineUsers uid = some user) :
    onSetStatus conn status now st =
      ({ db := updateUserStatus st.db uid status,
         onlineUsers := mapSet st.onlineUsers uid { user with status := status, lastActive := now } },
       Emit.userStatusChange uid (if status = Status.invisible then Status.offline else status) ::
         (if status = Status.invisible then
            [Emit.onlineUsers (visibleUsers
              (mapSet st.onlineUsers uid { user with status := status, lastActive := now }))]
          else [])) := by
  unfold onSetStatus
  rw [hconn, truthyId_pos uid hpos]
  simp only [hget, publicStatus]
  cases status <;> simp

theorem onSetStatus_keys (conn : Conn) (status : Status) (now : Int) (st : ServerState) :
    (onSetStatus conn status now st).1.onlineUsers.map Prod.fst =
      st.onlineUsers.map Prod.fst := by
  cases htr : truthyId conn.currentUserId with
  | none => simp only [onSetStatus, htr]
  | some uid =>
    cases hget : mapGet st.onlineUsers uid with
    | none => simp only [onSetStatus, htr, hget]
    | some user =>
      have hmem : uid ∈ st.onlineUsers.map Prod.fst :=
        (mapGet_isSome_iff _ _).1 (by simp [hget])
      simp only [onSetStatus, htr, hget]
      split <;> exact keys_mapSet_of_mem _ _ _ hmem

theorem mapHas_congr_keys (m m2 : OnlineUsers) (k : Nat)
    (h : m2.map Prod.fst = m.map Prod.fst) : mapHas m2 k = mapHas m k := by
  unfold mapHas
  rw [Bool.eq_iff_iff, mapGet_isSome_iff, mapGet_isSome_iff, h]

theorem statusDeltas_append (a b : List Emit) :
    statusDeltas (a ++ b) = statusDeltas a ++ statusDeltas b := by
  induction a with
  | nil => rfl
  | cons e a ih => cases e <;> simp [statusDeltas, ih]

theorem snapshots_append (a b : List Emit) :
    snapshots (a ++ b) = snapshots a ++ snapshots b := by
  induction a with
  | nil => rfl
  | cons e a ih => cases e <;> simp [snapshots, ih]

/-! ## Claims on `set_status`, search and `join` -/

/-- C1: in a sequence of `set_status` events, each sent on a connection whose user is in the
registry, every event yields exactly one `user_status_change`, carrying 'offline' when
'invisible' was requested and the requested status otherwise; no delta carries 'invisible'. -/
theorem setStatus_deltas_public (evs : List (Conn × Status × Int)) (st : ServerState)
    (hreg : ∀ ev ∈ evs, ∃ uid, ev.1.currentUserId = some uid ∧ 0 < uid ∧
      mapHas st.onlineUsers uid = true) :
    statusDeltas (runSetStatus evs st).2 =
        evs.map (fun ev => (ev.1.currentUserId.getD 0,
          if ev.2.1 = Status.invisible then Status.offline else ev.2.1)) ∧
      ∀ d ∈ statusDeltas (runSetStatus evs st).2, d.2 ≠ Status.invisible := by
  have main : statusDeltas (runSetStatus evs st).2 =
      evs.map (fun ev => (ev.1.currentUserId.getD 0,
        if ev.2.1 = Status.invisible then Status.offline else ev.2.1)) := by
    induction evs generalizing st with
    | nil => rfl
    | cons ev rest ih =>
      obtain ⟨conn, status, now⟩ := ev
      obtain ⟨uid, hconn0, hpos, hhas⟩ := hreg (conn, status, now) (List.mem_cons_self _ _)
      have hconn : conn.currentUserId = some uid := hconn0
      have hsome : (mapGet st.onlineUsers uid).isSome = true := hhas
      obtain ⟨user, hget⟩ := Option.isSome_iff_exists.1 hsome
      have hstep := onSetStatus_registered conn status now st uid user hconn hpos hget
      have hrest : ∀ ev ∈ rest, ∃ uid, ev.1.currentUserId = some uid ∧ 0 < uid ∧
          mapHas (onSetStatus conn status now st).1.onlineUsers uid = true := by
        intro ev2 hev2
        obtain ⟨uid2, h1, h2, h3⟩ := hreg ev2 (List.mem_cons_of_mem _ hev2)
        refine ⟨uid2, h1, h2, ?_⟩
        rw [mapHas_congr_keys _ _ _ (onSetStatus_keys conn status now st)]
        exact h3
      have ih2 := ih (onSetStatus conn status now st).1 hrest
      simp only [runSetStatus, statusDeltas_append, ih2, List.map_cons, hconn, Option.getD_some]
      rw [hstep]
      by_cases hinv : status = Status.invisible
      · simp [hinv, statusDeltas]
      · simp [hinv, statusDeltas]
  refine ⟨main, ?_⟩
  rw [main]
  intro d hd
  obtain ⟨ev, _, rfl⟩ := List.mem_map.1 hd
  by_cases hinv : ev.2.1 = Status.invisible
  · simp [hinv]
  · simp [hinv]

/-- Witness for C1: Ana requests 'invisible' and then 'online', Rui requests 'dnd'; the three
deltas carry 'offline', 'online' and 'dnd'. -/
theorem setStatus_deltas_public_witness :
    statusDeltas (runSetStatus
        [(exAnaConn, Status.invisible, 5), (exAnaConn, Status.online, 6),
          (exRuiConn, Status.dnd, 7)] exState).2 =
      [(1, Status.offline), (1, Status.online), (2, Status.dnd)] :=
  (setStatus_deltas_public
    [(exAnaConn, Status.invisible, 5), (exAnaConn, Status.online, 6),
      (exRuiConn, Status.dnd, 7)] exState
    (by
      intro ev hev
      simp only [List.mem_cons, List.mem_singleton, List.not_mem_nil, or_false] at hev
      rcases hev with rfl | rfl | rfl
      · exact ⟨1, rfl, by decide, by decide⟩
      · exact ⟨1, rfl, by decide, by decide⟩
      · exact ⟨2, rfl, by decide, by decide⟩)).1

/-- C2: with Ana in the registry with live status 'invisible', `/api/users/search` reports her
status as 'online', while `/api/friends/:userId` reports her as 'offline' to her friend Rui. -/
theorem search_reports_invisible_online :
    mapGet exState.onlineUsers 1 = some exAnaEntry ∧
      exAnaEntry.status = Status.invisible ∧
      (apiUsersSearch exState (some "an")).map (fun r => (r.id, r.status)) =
        [(1, Status.online)] ∧
      (apiFriends exState 2).map (fun f => (f.id, f.onlineStatus)) = [(1, Status.offline)] := by
  decide

/-- C3: for a known user, `join` stores a registry entry whose live status is 'online' when
the persisted status is 'offline' or absent and the persisted status otherwise, and after
`join` the persisted status equals the stored live status. -/
theorem join_resumes_status (conn : Conn) (id : Nat) (now : Int) (st : ServerState) (u : User)
    (hknown : findUser st.db.users id = some u) :
    ∃ e, mapGet (onJoin conn id now st).2.1.onlineUsers id = some e ∧
      (u.status = none ∨ u.status = some Status.offline → e.status = Status.online) ∧
      (∀ s, u.status = some s → s ≠ Status.offline → e.status = s) ∧
      persistedStatus (onJoin conn id now st).2.1.db id = some (some e.status) := by
  have hp : persistedStatus st.db id = some u.status := by
    simp [persistedStatus, hknown]
  cases hs : u.status with
  | none =>
    refine ⟨_, by simp only [onJoin, hknown]; exact mapGet_mapSet_self _ _ _, ?_, ?_, ?_⟩
    · intro _; simp [hs]
    · intro s h; cases h
    · simp [onJoin, hknown, hs, persistedStatus_update_self, hp]
  | some s =>
    refine ⟨_, by simp only [onJoin, hknown]; exact mapGet_mapSet_self _ _ _, ?_, ?_, ?_⟩
    · intro h
      rcases h with h | h
      · cases h
      · cases h; simp [hs]
    · intro s2 h hne
      cases h
      simp [hs, hne]
    · cases s <;> simp [onJoin, hknown, hs, persistedStatus_update_self, hp]

/-- Witness for C3: Ana, persisted as 'invisible', joins and is stored as 'invisible'. -/
theorem join_resumes_status_witness :
    ∃ e, mapGet (onJoin exAnaConn 1 9 exState).2.1.onlineUsers 1 = some e ∧
      (exAna.status = none ∨ exAna.status = some Status.offline → e.status = Status.online) ∧
      (∀ s, exAna.status = some s → s ≠ Status.offline → e.status = s) ∧
      persistedStatus (onJoin exAnaConn 1 9 exState).2.1.db 1 = some (some e.status) :=
  join_resumes_status exAnaConn 1 9 exState exAna (by decide)

/-- C5 (as stated) fails: Ana leaves 'invisible' for 'online' and Rui sets 'offline'; in
both cases `set_status` emits the delta only and no `online_users` snapshot. -/
theorem setStatus_snapshot_counterexample :
    (mapGet exState.onlineUsers 1).map (fun e => e.status) = some Status.invisible ∧
      (onSetStatus exAnaConn Status.online 5 exState).2 =
        [Emit.userStatusChange 1 Status.online] ∧
      (onSetStatus exRuiConn Status.offline 5 exState).2 =
        [Emit.userStatusChange 2 Status.offline] := by
  decide

/-- C5 (amended): for a registered user, `set_status` emits exactly one delta, and it emits a
snapshot of the updated registry exactly when the new status is 'invisible'; for 'online',
'dnd' and 'offline' no snapshot is emitted, whatever the previous live status. -/
theorem setStatus_snapshot_iff_invisible (conn : Conn) (status : Status) (now : Int)
    (st : ServerState) (uid : Nat) (user : UserData)
    (hconn : conn.currentUserId = some uid) (hpos : 0 < uid)
    (hget : mapGet st.onlineUsers uid = some user) :
    statusDeltas (onSetStatus conn status now st).2 =
        [(uid, if status = Status.invisible then Status.offline else status)] ∧
      snapshots (onSetStatus conn status now st).2 =
        (if status = Status.invisible then
          [visibleUsers (onSetStatus conn status now st).1.onlineUsers] else []) := by
  rw [onSetStatus_registered conn status now st uid user hconn hpos hget]
  by_cases hinv : status = Status.invisible
  · simp [hinv, statusDeltas, snapshots]
  · simp [hinv, statusDeltas, snapshots]

/-- Witness for the amended C5: Rui, registered and 'online', sets 'offline'. -/
theorem setStatus_snapshot_iff_invisible_witness :
    statusDeltas (onSetStatus exRuiConn Status.offline 5 exState).2 = [(2, Status.offline)] ∧
      snapshots (onSetStatus exRuiConn Status.offline 5 exState).2 = [] :=
  setStatus_snapshot_iff_invisible exRuiConn Status.offline 5 exState 2 exRuiEntry rfl
    (by decide) (by decide)

/-! ## Lemmas on the idle pruner -/

theorem pruneLoop_eq (now : Int) (l : List (Nat × UserData)) (st : ServerState)
    (out : List Emit) (changed : Bool) :
    pruneLoop now l (st, out, changed) =
      ({ db := (staleKeys now l).foldl (fun d k => updateUserStatus d k Status.offline) st.db,
         onlineUsers := (staleKeys now l).foldl mapDelete st.onlineUsers },
       out ++ (staleKeys now l).map (fun k => Emit.userStatusChange k Status.offline),
       changed || !(staleKeys now l).isEmpty) := by
  induction l generalizing st out changed with
  | nil => simp [pruneLoop, staleKeys]
  | cons e l ih =>
    obtain ⟨k, v⟩ := e
    by_cases h : now - v.lastActive > 130000
    · simp [pruneLoop, pruneThresholdMs, staleKeys, isStale, h, ih]
    · simp [pruneLoop, pruneThresholdMs, staleKeys, isStale, h, ih]

theorem foldl_mapDelete (ks : List Nat) (m : OnlineUsers) :
    ks.foldl mapDelete m = m.filter (fun e => decide (e.1 ∉ ks)) := by
  induction ks generalizing m with
  | nil => simp
  | cons k ks ih =>
    simp only [List.foldl_cons, ih, mapDelete, List.filter_filter]
    apply List.filter_congr
    intro e _
    by_cases h1 : e.1 = k <;> by_cases h2 : e.1 ∈ ks <;> simp [h1, h2]

theorem nodupKeys_unique (m : OnlineUsers) (hnd : NodupKeys m) (k : Nat) (v w : UserData)
    (hv : (k, v) ∈ m) (hw : (k, w) ∈ m) : v = w := by
  have h1 := mem_mapGet_of_nodup m hnd k v hv
  have h2 := mem_mapGet_of_nodup m hnd k w hw
  rw [h1] at h2
  exact Option.some.inj h2

theorem mem_staleKeys (now : Int) (m : OnlineUsers) (k : Nat) :
    k ∈ staleKeys now m ↔ ∃ v, (k, v) ∈ m ∧ isStale now (k, v) = true := by
  unfold staleKeys
  constructor
  · intro h
    obtain ⟨⟨k1, v⟩, hmem, rfl⟩ := List.mem_map.1 h
    exact ⟨v, (List.mem_filter.1 hmem).1, (List.mem_filter.1 hmem).2⟩
  · rintro ⟨v, hmem, hst⟩
    exact List.mem_map.2 ⟨(k, v), List.mem_filter.2 ⟨hmem, hst⟩, rfl⟩

theorem prune_registry_filter (now : Int) (m : OnlineUsers) (hnd : NodupKeys m) :
    (staleKeys now m).foldl mapDelete m =
      m.filter (fun e => decide (now - e.2.lastActive ≤ 130000)) := by
  rw [foldl_mapDelete]
  apply List.filter_congr
  intro e he
  obtain ⟨k, v⟩ := e
  by_cases hs : now - v.lastActive > 130000
  · have hk : k ∈ staleKeys now m := (mem_staleKeys now m k).2 ⟨v, he, by simp [isStale, hs]⟩
    have hle : ¬ now - v.lastActive ≤ 130000 := not_le.2 hs
    simp [hk, hle]
  · have hk : k ∉ staleKeys now m := by
      intro hmem
      obtain ⟨w, hw, hst⟩ := (mem_staleKeys now m k).1 hmem
      have hvw : v = w := nodupKeys_unique m hnd k v w he hw
      subst hvw
      simp [isStale] at hst
      exact hs hst
    have hle : now - v.lastActive ≤ 130000 := not_lt.1 hs
    simp [hk, hle]

theorem idlePruner_eq (now : Int) (st : ServerState) :
    idlePruner now st =
      ({ db := (staleKeys now st.onlineUsers).foldl
            (fun d k => updateUserStatus d k Status.offline) st.db,
         onlineUsers := (staleKeys now st.onlineUsers).foldl mapDelete st.onlineUsers },
       (staleKeys now st.onlineUsers).map (fun k => Emit.userStatusChange k Status.offline) ++
         (if staleKeys now st.onlineUsers = [] then []
          else [Emit.onlineUsers (visibleUsers
            ((staleKeys now st.onlineUsers).foldl mapDelete st.onlineUsers))])) := by
  unfold idlePruner
  rw [pruneLoop_eq]
  cases h : staleKeys now st.onlineUsers with
  | nil => simp
  | cons k ks => simp

theorem persistedStatus_foldl_offline (ks : List Nat) (db : Db) (id : Nat) :
    persistedStatus (ks.foldl (fun d k => updateUserStatus d k Status.offline) db) id =
      if id ∈ ks then (persistedStatus db id).map (fun _ => some Status.offline)
      else persistedStatus db id := by
  induction ks generalizing db with
  | nil => simp
  | cons k ks ih =>
    simp only [List.foldl_cons, ih, List.mem_cons]
    by_cases hk : id = k
    · subst hk
      simp only [persistedStatus_update_self, Option.map_map, true_or, if_true]
      split <;> rfl
    · simp only [persistedStatus_update_ne _ _ _ _ hk, hk, false_or]

theorem staleKeys_nil_of_fresh (now : Int) (m : OnlineUsers)
    (h : ∀ e ∈ m, isStale now e = false) : staleKeys now m = [] := by
  unfold staleKeys
  rw [List.filter_eq_nil_iff.2 (fun e he => by simp [h e he])]
  rfl

theorem staleKeys_single (now : Int) (m : OnlineUsers) (hnd : NodupKeys m) (uid : Nat)
    (hmem : uid ∈ m.map Prod.fst)
    (hst : ∀ e ∈ m, isStale now e = decide (e.1 = uid)) : staleKeys now m = [uid] := by
  induction m with
  | nil => simp at hmem
  | cons e m ih =>
    obtain ⟨k, v⟩ := e
    have hnd2 : k ∉ m.map Prod.fst ∧ NodupKeys m := by
      simpa [NodupKeys] using hnd
    have hhead := hst (k, v) (List.mem_cons_self _ _)
    by_cases hk : k = uid
    · subst hk
      have hrest : staleKeys now m = [] := by
        apply staleKeys_nil_of_fresh
        intro e he
        rw [hst e (List.mem_cons_of_mem _ he)]
        have : e.1 ≠ k := fun heq => hnd2.1 (heq ▸ List.mem_map.2 ⟨e, he, rfl⟩)
        simp [this]
      have hstale : isStale now (k, v) = true := by simpa using hhead
      have hunf : staleKeys now ((k, v) :: m) = k :: staleKeys now m := by
        simp [staleKeys, List.filter_cons, hstale]
      rw [hunf, hrest]
    · have hfresh : isStale now (k, v) = false := by simpa [hk] using hhead
      have hunf : staleKeys now ((k, v) :: m) = staleKeys now m := by
        simp [staleKeys, List.filter_cons, hfresh]
      have hmem2 : uid ∈ m.map Prod.fst := by
        rcases List.mem_cons.1 hmem with h | h
        · exact absurd h.symm hk
        · exact h
      rw [hunf]
      exact ih hnd2.2 hmem2 (fun e he => hst e (List.mem_cons_of_mem _ he))

theorem onDisconnect_registered (conn : Conn) (st : ServerState) (uid : Nat) (user : UserData)
    (hconn : conn.currentUserId = some uid) (hpos : 0 < uid)
    (hget : mapGet st.onlineUsers uid = some user) :
    onDisconnect conn st =
      ({ db := updateUserStatus st.db uid Status.offline,
         onlineUsers := mapDelete st.onlineUsers uid },
       if user.status = Status.invisible then []
       else [Emit.userStatusChange uid Status.offline,
             Emit.onlineUsers (visibleUsers (mapDelete st.onlineUsers uid))]) := by
  unfold onDisconnect
  rw [hconn, truthyId_pos uid hpos]
  simp only [hget]
  by_cases hinv : user.status = Status.invisible
  · simp [hinv]
  · simp [hinv]

theorem idlePruner_single (now : Int) (st : ServerState) (uid : Nat) (user : UserData)
    (hnd : NodupKeys st.onlineUsers) (hget : mapGet st.onlineUsers uid = some user)
    (hstale : now - user.lastActive > 130000)
    (hothers : ∀ e ∈ st.onlineUsers, e.1 ≠ uid → now - e.2.lastActive ≤ 130000) :
    idlePruner now st =
      ({ db := updateUserStatus st.db uid Status.offline,
         onlineUsers := mapDelete st.onlineUsers uid },
       [Emit.userStatusChange uid Status.offline,
        Emit.onlineUsers (visibleUsers (mapDelete st.onlineUsers uid))]) := by
  have hmemE : (uid, user) ∈ st.onlineUsers := mapGet_some_mem _ _ _ hget
  have hmem : uid ∈ st.onlineUsers.map Prod.fst := List.mem_map.2 ⟨(uid, user), hmemE, rfl⟩
  have hst : ∀ e ∈ st.onlineUsers, isStale now e = decide (e.1 = uid) := by
    intro e he
    obtain ⟨k, v⟩ := e
    by_cases hk : k = uid
    · subst hk
      have hv : v = user := nodupKeys_unique _ hnd k v user he hmemE
      subst hv
      simp [isStale, hstale]
    · have := hothers (k, v) he hk
      simp [isStale, hk, this]
  rw [idlePruner_eq, staleKeys_single now st.onlineUsers hnd uid hmem hst]
  simp

/-! ## Claims on disconnect and the idle pruner -/

/-- C6 (as stated) fails: Ana is registered with live status 'invisible' and is the only
entry older than the threshold at time 140000; the prune sweep broadcasts an offline delta
and a snapshot, while her disconnect broadcasts nothing (registry and persisted data agree). -/
theorem disconnect_invisible_counterexample :
    (mapGet exState.onlineUsers 1).map (fun e => e.status) = some Status.invisible ∧
      (idlePruner 140000 exState).1 = (onDisconnect exAnaConn exState).1 ∧
      (idlePruner 140000 exState).2 =
        [Emit.userStatusChange 1 Status.offline, Emit.onlineUsers [(2, Status.online)]] ∧
      (onDisconnect exAnaConn exState).2 = [] := by
  decide

/-- C6 (amended): for a registered user `uid` who is the only entry a prune sweep at `now`
evicts, disconnect and the sweep produce the same registry and persisted data; the sweep
broadcasts one offline delta followed by one snapshot; disconnect broadcasts the same two
events when the live status of `uid` is not 'invisible', and nothing when it is. -/
theorem disconnect_matches_prune (conn : Conn) (st : ServerState) (uid : Nat)
    (user : UserData) (now : Int) (hnd : NodupKeys st.onlineUsers)
    (hconn : conn.currentUserId = some uid) (hpos : 0 < uid)
    (hget : mapGet st.onlineUsers uid = some user)
    (hstale : now - user.lastActive > 130000)
    (hothers : ∀ e ∈ st.onlineUsers, e.1 ≠ uid → now - e.2.lastActive ≤ 130000) :
    (onDisconnect conn st).1 = (idlePruner now st).1 ∧
      (idlePruner now st).2 =
        [Emit.userStatusChange uid Status.offline,
         Emit.onlineUsers (visibleUsers (idlePruner now st).1.onlineUsers)] ∧
      (user.status ≠ Status.invisible → (onDisconnect conn st).2 = (idlePruner now st).2) ∧
      (user.status = Status.invisible → (onDisconnect conn st).2 = []) := by
  rw [onDisconnect_registered conn st uid user hconn hpos hget,
    idlePruner_single now st uid user hnd hget hstale hothers]
  refine ⟨rfl, rfl, ?_, ?_⟩
  · intro h; simp [h]
  · intro h; simp [h]

/-- Witness for the amended C6: Rui ('online', last active at 100000) disconnects; the sweep
at time 250000 is taken on the registry that holds Rui alone. -/
theorem disconnect_matches_prune_witness :
    (onDisconnect exRuiConn { db := exDb, onlineUsers := [(2, exRuiEntry)] }).1 =
        (idlePruner 250000 { db := exDb, onlineUsers := [(2, exRuiEntry)] }).1 ∧
      (idlePruner 250000 { db := exDb, onlineUsers := [(2, exRuiEntry)] }).2 =
        [Emit.userStatusChange 2 Status.offline,
         Emit.onlineUsers (visibleUsers
           (idlePruner 250000 { db := exDb, onlineUsers := [(2, exRuiEntry)] }).1.onlineUsers)] ∧
      (exRuiEntry.status ≠ Status.invisible →
        (onDisconnect exRuiConn { db := exDb, onlineUsers := [(2, exRuiEntry)] }).2 =
          (idlePruner 250000 { db := exDb, onlineUsers := [(2, exRuiEntry)] }).2) ∧
      (exRuiEntry.status = Status.invisible →
        (onDisconnect exRuiConn { db := exDb, onlineUsers := [(2, exRuiEntry)] }).2 = []) :=
  disconnect_matches_prune exRuiConn { db := exDb, onlineUsers := [(2, exRuiEntry)] } 2
    exRuiEntry 250000 (by unfold NodupKeys; decide) rfl (by decide) (by decide) (by decide)
    (by intro e he hne; simp at he; subst he; exact absurd rfl hne)

/-- C7: a prune sweep at `now` keeps exactly the entries with `now - lastActive <= 130000`
(the threshold exceeds the 30000 ms heartbeat interval, so an entry refreshed within one
interval stays); each evicted user is persisted as 'offline'; the emissions are one offline
`user_status_change` per evicted entry, followed by one snapshot of the remaining registry
when at least one entry was evicted and by nothing otherwise. -/
theorem idlePruner_evicts_stale (now : Int) (st : ServerState)
    (hnd : NodupKeys st.onlineUsers) :
    (idlePruner now st).1.onlineUsers =
        st.onlineUsers.filter (fun e => decide (now - e.2.lastActive ≤ 130000)) ∧
      heartbeatIntervalMs < pruneThresholdMs ∧ pruneThresholdMs = 130000 ∧
      (∀ e ∈ st.onlineUsers, now - e.2.lastActive ≤ heartbeatIntervalMs →
        e ∈ (idlePruner now st).1.onlineUsers) ∧
      (∀ e ∈ st.onlineUsers, now - e.2.lastActive > 130000 →
        persistedStatus (idlePruner now st).1.db e.1 =
          (persistedStatus st.db e.1).map (fun _ => some Status.offline)) ∧
      (idlePruner now st).2 =
        (st.onlineUsers.filter (fun e => decide (now - e.2.lastActive > 130000))).map
            (fun e => Emit.userStatusChange e.1 Status.offline) ++
          (if st.onlineUsers.any (fun e => decide (now - e.2.lastActive > 130000)) then
            [Emit.onlineUsers (visibleUsers (idlePruner now st).1.onlineUsers)]
          else []) := by
  have hreg : (idlePruner now st).1.onlineUsers =
      st.onlineUsers.filter (fun e => decide (now - e.2.lastActive ≤ 130000)) := by
    rw [idlePruner_eq]
    exact prune_registry_filter now st.onlineUsers hnd
  refine ⟨hreg, by decide, rfl, ?_, ?_, ?_⟩
  · intro e he hfresh
    rw [hreg]
    have hle : now - e.2.lastActive ≤ 130000 :=
      le_trans hfresh (by decide : heartbeatIntervalMs ≤ 130000)
    exact List.mem_filter.2 ⟨he, by simpa using hle⟩
  · intro e he hstale
    rw [idlePruner_eq]
    simp only [persistedStatus_foldl_offline]
    have hk : e.1 ∈ staleKeys now st.onlineUsers :=
      (mem_staleKeys now st.onlineUsers e.1).2 ⟨e.2, he, by simp [isStale, hstale]⟩
    simp [hk]
  · rw [idlePruner_eq]
    have hkeys : (staleKeys now st.onlineUsers).map
          (fun k => Emit.userStatusChange k Status.offline) =
        (st.onlineUsers.filter (fun e => decide (now - e.2.lastActive > 130000))).map
          (fun e => Emit.userStatusChange e.1 Status.offline) := by
      unfold staleKeys
      rw [List.map_map]
      rfl
    rw [hkeys]
    by_cases hany : st.onlineUsers.any (fun e => decide (now - e.2.lastActive > 130000)) = true
    · have hne : staleKeys now st.onlineUsers ≠ [] := by
        obtain ⟨e, he, hs⟩ := List.any_eq_true.1 hany
        intro hnil
        have : e.1 ∈ staleKeys now st.onlineUsers :=
          (mem_staleKeys now st.onlineUsers e.1).2 ⟨e.2, he, hs⟩
        rw [hnil] at this
        exact absurd this (List.not_mem_nil _)
      simp only [hany, hne, if_true, if_false]
    · have hnil : staleKeys now st.onlineUsers = [] := by
        apply staleKeys_nil_of_fresh
        intro e he
        cases hb : isStale now e with
        | false => rfl
        | true => exact absurd (List.any_eq_true.2 ⟨e, he, hb⟩) hany
      simp only [hany, hnil, if_true, if_false]
      simp

/-- Witness for C7: at time 140000 Ana (last active 0) is evicted and Rui (last active
100000) stays. -/
theorem idlePruner_evicts_stale_witness :
    NodupKeys exState.onlineUsers ∧
      (idlePruner 140000 exState).1.onlineUsers = [(2, exRuiEntry)] ∧
      (idlePruner 140000 exState).2 =
        [Emit.userStatusChange 1 Status.offline, Emit.onlineUsers [(2, Status.online)]] :=
  ⟨by unfold NodupKeys; decide,
   (idlePruner_evicts_stale 140000 exState (by unfold NodupKeys; decide)).1.trans (by decide),
   (idlePruner_evicts_stale 140000 exState (by unfold NodupKeys; decide)).2.2.2.2.2.trans
     (by decide)⟩

/-! ## Snapshots of all handlers -/

theorem not_mem_broadcastStatus (st : ServerState) (userId : Nat) (status : Status)
    (snap : List (Nat × Status)) : Emit.onlineUsers snap ∉ broadcastStatus st userId status := by
  unfold broadcastStatus
  intro h
  obtain ⟨f, _, hf⟩ := List.mem_filterMap.1 h
  cases hg : mapGet st.onlineUsers f.id with
  | none => simp [hg] at hf
  | some userData => simp [hg] at hf

theorem handle_snapshot (ev : ServerEvent) (st : ServerState) (snap : List (Nat × Status))
    (h : Emit.onlineUsers snap ∈ (handle ev st).2) :
    snap = visibleUsers (handle ev st).1.onlineUsers := by
  cases ev with
  | join conn id now =>
    cases hu : findUser st.db.users id with
    | none => simp [handle, onJoin, hu] at h
    | some u =>
      simp only [handle, onJoin, hu, List.mem_append, List.mem_singleton] at h ⊢
      rcases h with h | h
      · exact absurd h (not_mem_broadcastStatus _ _ _ _)
      · exact Emit.onlineUsers.inj h
  | setStatus conn status now =>
    cases htr : truthyId conn.currentUserId with
    | none => simp [handle, onSetStatus, htr] at h
    | some uid =>
      cases hget : mapGet st.onlineUsers uid with
      | none => simp [handle, onSetStatus, htr, hget] at h
      | some user =>
        simp only [handle, onSetStatus, htr, hget] at h ⊢
        split at h
        · rename_i hc
          simp only [hc, if_true]
          simpa using h
        · simp at h
  | heartbeat conn now =>
    cases htr : truthyId conn.currentUserId with
    | none => simp [handle, onHeartbeat, htr] at h
    | some uid =>
      cases hget : mapGet st.onlineUsers uid with
      | none => simp [handle, onHeartbeat, htr, hget] at h
      | some user => simp [handle, onHeartbeat, htr, hget] at h
  | disconnect conn =>
    cases htr : truthyId conn.currentUserId with
    | none => simp [handle, onDisconnect, htr] at h
    | some uid =>
      cases hget : mapGet st.onlineUsers uid with
      | none => simp [handle, onDisconnect, htr, hget] at h
      | some user =>
        simp only [handle, onDisconnect, htr, hget] at h ⊢
        split at h
        · rename_i hc
          simp only [hc, if_true]
          simpa using h
        · simp at h
  | prune now =>
    simp only [handle] at h ⊢
    rw [idlePruner_eq] at h ⊢
    simp only [List.mem_append, List.mem_map] at h
    rcases h with ⟨k, _, hk⟩ | h
    · cases hk
    · split at h
      · simp at h
      · simpa using h

theorem handle_nodupKeys (ev : ServerEvent) (st : ServerState)
    (hnd : NodupKeys st.onlineUsers) : NodupKeys (handle ev st).1.onlineUsers := by
  cases ev with
  | join conn id now =>
    cases hu : findUser st.db.users id with
    | none => simpa [handle, onJoin, hu] using hnd
    | some u =>
      simp only [handle, onJoin, hu]
      exact nodupKeys_mapSet _ _ _ hnd
  | setStatus conn status now =>
    unfold NodupKeys
    simp only [handle]
    rw [onSetStatus_keys]
    exact hnd
  | heartbeat conn now =>
    cases htr : truthyId conn.currentUserId with
    | none => simpa [handle, onHeartbeat, htr] using hnd
    | some uid =>
      cases hget : mapGet st.onlineUsers uid with
      | none => simpa [handle, onHeartbeat, htr, hget] using hnd
      | some user =>
        simp only [handle, onHeartbeat, htr, hget]
        exact nodupKeys_mapSet _ _ _ hnd
  | disconnect conn =>
    cases htr : truthyId conn.currentUserId with
    | none => simpa [handle, onDisconnect, htr] using hnd
    | some uid =>
      cases hget : mapGet st.onlineUsers uid with
      | none => simpa [handle, onDisconnect, htr, hget] using hnd
      | some user =>
        simp only [handle, onDisconnect, htr, hget]
        split <;> exact nodupKeys_mapDelete _ _ hnd
  | prune now =>
    simp only [handle]
    rw [idlePruner_eq, foldl_mapDelete]
    exact nodupKeys_filter _ _ hnd

/-- C4: every `online_users` snapshot emitted by `join`, `set_status`, `heartbeat`,
`disconnect` or the idle pruner lists exactly the entries of the registry as it is after the
handler whose live status is not 'invisible', each paired with that status and each once; no
snapshot entry carries 'invisible'. -/
theorem snapshot_lists_visible (ev : ServerEvent) (st : ServerState)
    (hnd : NodupKeys st.onlineUsers) (snap : List (Nat × Status))
    (hsnap : Emit.onlineUsers snap ∈ (handle ev st).2) :
    (∀ id s, (id, s) ∈ snap ↔
        ∃ e, mapGet (handle ev st).1.onlineUsers id = some e ∧ e.status = s ∧
          s ≠ Status.invisible) ∧
      (snap.map Prod.fst).Nodup ∧
      ∀ p ∈ snap, p.2 ≠ Status.invisible := by
  have hpost := handle_nodupKeys ev st hnd
  have heq := handle_snapshot ev st snap hsnap
  subst heq
  refine ⟨?_, nodup_keys_visibleUsers _ hpost, ?_⟩
  · intro id s
    rw [mem_visibleUsers]
    constructor
    · rintro ⟨e, hmem, hs, hne⟩
      exact ⟨e, mem_mapGet_of_nodup _ hpost id e hmem, hs, hne⟩
    · rintro ⟨e, hget, hs, hne⟩
      exact ⟨e, mapGet_some_mem _ _ _ hget, hs, hne⟩
  · intro p hp
    obtain ⟨id, s⟩ := p
    obtain ⟨_, _, _, hne⟩ := (mem_visibleUsers _ id s).1 hp
    exact hne

/-- Witness for C4: Ana re-asserts 'invisible'; the snapshot lists Rui alone, as 'online'. -/
theorem snapshot_lists_visible_witness :
    Emit.onlineUsers [(2, Status.online)] ∈
        (handle (ServerEvent.setStatus exAnaConn Status.invisible 7) exState).2 ∧
      ((∀ id s, (id, s) ∈ [(2, Status.online)] ↔
        ∃ e, mapGet (handle (ServerEvent.setStatus exAnaConn Status.invisible 7)
            exState).1.onlineUsers id = some e ∧ e.status = s ∧ s ≠ Status.invisible) ∧
      (([(2, Status.online)] : List (Nat × Status)).map Prod.fst).Nodup ∧
      ∀ p ∈ [(2, Status.online)], p.2 ≠ Status.invisible) :=
  ⟨by decide,
   snapshot_lists_visible (ServerEvent.setStatus exAnaConn Status.invisible 7) exState
     (by unfold NodupKeys; decide) [(2, Status.online)] (by decide)⟩

/-! ## Heartbeat -/

/-- C8: a heartbeat emits nothing and leaves the persisted data alone; for a registered user
it sets `lastActive` of that user's entry to the arrival time and changes neither the other
fields of the entry, nor any other entry, nor the order of the keys; from a connection whose
user is not in the registry it changes nothing. -/
theorem heartbeat_frame (conn : Conn) (now : Int) (st : ServerState) :
    (onHeartbeat conn now st).2 = [] ∧
      (onHeartbeat conn now st).1.db = st.db ∧
      (∀ uid user, conn.currentUserId = some uid → 0 < uid →
        mapGet st.onlineUsers uid = some user →
          mapGet (onHeartbeat conn now st).1.onlineUsers uid =
              some { socketId := user.socketId, lastActive := now, username := user.username,
                     avatar := user.avatar, status := user.status } ∧
            (∀ k, k ≠ uid →
              mapGet (onHeartbeat conn now st).1.onlineUsers k = mapGet st.onlineUsers k) ∧
            (onHeartbeat conn now st).1.onlineUsers.map Prod.fst =
              st.onlineUsers.map Prod.fst) ∧
      ((∀ uid, conn.currentUserId = some uid → mapGet st.onlineUsers uid = none) →
        (onHeartbeat conn now st).1 = st) := by
  refine ⟨?_, ?_, ?_, ?_⟩
  · cases htr : truthyId conn.currentUserId with
    | none => simp [onHeartbeat, htr]
    | some uid =>
      cases hget : mapGet st.onlineUsers uid with
      | none => simp [onHeartbeat, htr, hget]
      | some user => simp [onHeartbeat, htr, hget]
  · cases htr : truthyId conn.currentUserId with
    | none => simp [onHeartbeat, htr]
    | some uid =>
      cases hget : mapGet st.onlineUsers uid with
      | none => simp [onHeartbeat, htr, hget]
      | some user => simp [onHeartbeat, htr, hget]
  · intro uid user hconn hpos hget
    have hmem : uid ∈ st.onlineUsers.map Prod.fst :=
      (mapGet_isSome_iff _ _).1 (by simp [hget])
    simp only [onHeartbeat, hconn, truthyId_pos uid hpos, hget]
    exact ⟨mapGet_mapSet_self _ _ _, fun k hk => mapGet_mapSet_ne _ _ _ _ hk,
      keys_mapSet_of_mem _ _ _ hmem⟩
  · intro hnone
    cases htr : truthyId conn.currentUserId with
    | none => simp [onHeartbeat, htr]
    | some uid =>
      have hconn : conn.currentUserId = some uid := by
        cases hc : conn.currentUserId with
        | none => rw [hc] at htr; simp [truthyId] at htr
        | some n =>
          cases n with
          | zero => rw [hc] at htr; simp [truthyId] at htr
          | succ m =>
            rw [hc] at htr
            simp only [truthyId] at htr
            exact htr
      simp [onHeartbeat, htr, hnone uid hconn]

/-- Witness for C8: a heartbeat of Rui at time 123456 refreshes his entry and keeps Ana's;
a heartbeat on a connection of the unregistered user 7 changes nothing. -/
theorem heartbeat_frame_witness :
    (mapGet (onHeartbeat exRuiConn 123456 exState).1.onlineUsers 2 =
        some { socketId := exRuiEntry.socketId, lastActive := 123456,
               username := exRuiEntry.username, avatar := exRuiEntry.avatar,
               status := exRuiEntry.status } ∧
      (∀ k, k ≠ 2 →
        mapGet (onHeartbeat exRuiConn 123456 exState).1.onlineUsers k =
          mapGet exState.onlineUsers k) ∧
      (onHeartbeat exRuiConn 123456 exState).1.onlineUsers.map Prod.fst =
        exState.onlineUsers.map Prod.fst) ∧
      (onHeartbeat { socketId := "s7", currentUserId := some 7 } 123456 exState).1 = exState :=
  ⟨(heartbeat_frame exRuiConn 123456 exState).2.2.1 2 exRuiEntry rfl (by decide) (by decide),
   (heartbeat_frame { socketId := "s7", currentUserId := some 7 } 123456 exState).2.2.2
     (by intro uid h; cases h; decide)⟩

/-! ## Client presence monitor -/

/-- C9: when the manual preference is 'dnd' or 'invisible', the idle timer firing emits
nothing and leaves the monitor state as it is: the status is unchanged and `isIdle` is not
set, so it stays false. -/
theorem idleTimer_keeps_manual_status (s : MonitorState)
    (hpref : s.userStatus = some Status.dnd ∨ s.userStatus = some Status.invisible) :
    (idleTimerFired s).2 = [] ∧
      (idleTimerFired s).1.userStatus = s.userStatus ∧
      (idleTimerFired s).1.isIdle = s.isIdle ∧
      (s.isIdle = false → (idleTimerFired s).1.isIdle = false) := by
  have hfire : idleTimerFired s = (s, []) := by
    unfold idleTimerFired
    rw [if_pos hpref]
  rw [hfire]
  exact ⟨rfl, rfl, rfl, fun h => h⟩

/-- Witness for C9: the preference is 'dnd' and the monitor is not idle. -/
theorem idleTimer_keeps_manual_status_witness :
    (idleTimerFired { userStatus := some Status.dnd, isIdle := false }).2 = [] ∧
      (idleTimerFired { userStatus := some Status.dnd, isIdle := false }).1.userStatus =
        some Status.dnd ∧
      (idleTimerFired { userStatus := some Status.dnd, isIdle := false }).1.isIdle = false ∧
      (false = false →
        (idleTimerFired { userStatus := some Status.dnd, isIdle := false }).1.isIdle = false) :=
  idleTimer_keeps_manual_status { userStatus := some Status.dnd, isIdle := false }
    (Or.inl rfl)

/-- C10: with manual preference 'online' and the monitor not idle, the idle timer firing
emits `set_status('offline')`, marks `isIdle` and overwrites `user.status` with 'offline';
the next `resetIdleTimer` (activity) then emits `set_status('offline')`, not 'online', and
the status stays 'offline'. -/
theorem idle_then_activity_emits_offline :
    idleTimerFired { userStatus := some Status.online, isIdle := false } =
        ({ userStatus := some Status.offline, isIdle := true },
          [ClientEmit.setStatus Status.offline]) ∧
      resetIdleTimer (idleTimerFired { userStatus := some Status.online, isIdle := false }).1 =
        ({ userStatus := some Status.offline, isIdle := false },
          [ClientEmit.setStatus Status.offline]) ∧
      (resetIdleTimer
        (resetIdleTimer
          (idleTimerFired { userStatus := some Status.online, isIdle := false }).1).1).2 = [] := by
  decide

/-! ## Tiered media acquisition -/

theorem isCameraIssue_eq (err : MediaError) :
    isCameraIssue err = cameraMissingOrUnavailable err := by
  unfold isCameraIssue cameraMissingOrUnavailable
  rw [Bool.eq_iff_iff]
  simp [or_assoc]

theorem getMediaStream_video_eq (isIOS : Bool) (device : Device) :
    getMediaStream isIOS device true = tieredReference isIOS device := by
  unfold getMediaStream tieredReference advancedConstraints basicConstraints audioOnlyConstraints
  simp only [if_true, Bool.true_and, isCameraIssue_eq]

/-- C11: with video preferred, `getMediaStream` equals the tiered reference for every device
behaviour: a tier-1 success is returned after one request; otherwise a tier-2 success after
two; otherwise the audio-only request is made exactly when the tier-2 failure names a missing
or unavailable camera, its outcome (stream or failure) being the result; a `NotAllowedError`
or any other tier-2 failure is the result without an audio-only request. -/
theorem getMediaStream_tiered (isIOS : Bool) (device : Device) :
    getMediaStream isIOS device true = tieredReference isIOS device ∧
      (∀ stream, device [] (advancedConstraints isIOS true) = MediaResult.ok stream →
        getMediaStream isIOS device true =
          (MediaResult.ok stream, [advancedConstraints isIOS true])) ∧
      (∀ e1 stream, device [] (advancedConstraints isIOS true) = MediaResult.error e1 →
        device [advancedConstraints isIOS true] (basicConstraints true) =
          MediaResult.ok stream →
        getMediaStream isIOS device true =
          (MediaResult.ok stream, [advancedConstraints isIOS true, basicConstraints true])) ∧
      (∀ e1 e2, device [] (advancedConstraints isIOS true) = MediaResult.error e1 →
        device [advancedConstraints isIOS true] (basicConstraints true) =
          MediaResult.error e2 →
        (cameraMissingOrUnavailable e2 = true →
          getMediaStream isIOS device true =
            (device [advancedConstraints isIOS true, basicConstraints true]
                audioOnlyConstraints,
              [advancedConstraints isIOS true, basicConstraints true, audioOnlyConstraints])) ∧
        (cameraMissingOrUnavailable e2 = false →
          getMediaStream isIOS device true =
            (MediaResult.error e2, [advancedConstraints isIOS true, basicConstraints true])) ∧
        (e2.name = "NotAllowedError" →
          getMediaStream isIOS device true =
            (MediaResult.error e2, [advancedConstraints isIOS true, basicConstraints true]))) := by
  refine ⟨getMediaStream_video_eq isIOS device, ?_, ?_, ?_⟩
  · intro stream h
    simp [getMediaStream, h]
  · intro e1 stream h1 h2
    simp [getMediaStream, h1, h2]
  · intro e1 e2 h1 h2
    have hno : cameraMissingOrUnavailable e2 = false →
        getMediaStream isIOS device true =
          (MediaResult.error e2, [advancedConstraints isIOS true, basicConstraints true]) := by
      intro hc
      simp [getMediaStream, h1, h2, isCameraIssue_eq, hc]
    refine ⟨?_, hno, ?_⟩
    · intro hc
      simp [getMediaStream, h1, h2, isCameraIssue_eq, hc]
    · intro hname
      apply hno
      simp [cameraMissingOrUnavailable, hname]

/-- Witness for C11: the constrained request fails, the boolean request is denied; the result
is the denial after two requests, audio only is not requested. -/
theorem getMediaStream_tiered_witness :
    getMediaStream false exDeniedDevice true =
      (MediaResult.error { name := "NotAllowedError", message := "denied" },
        [advancedConstraints false true, basicConstraints true]) :=
  ((getMediaStream_tiered false exDeniedDevice).2.2.2
    { name := "OverconstrainedError", message := "constraints" }
    { name := "NotAllowedError", message := "denied" } (by decide) (by decide)).2.2 rfl

/-! ## Incoming calls and the busy-timeout -/

/-- C12: the handler of an incoming link makes no media request; its only effect is one
`setTimeout` of 30000 ms; it stores the call as the pending request with that timer and with
the video flag `metadata?.type !== 'audio'`; in the client it adds exactly one pending
busy-timeout. -/
theorem incoming_link_records_request (timer : Nat) (call : MediaConnection) (prev : CallState)
    (w : ClientWorld) :
    (onPeerCall timer call prev).2 = [Effect.setTimeout timer 30000] ∧
      (∀ preferVideo, Effect.getMediaStream preferVideo ∉ (onPeerCall timer call prev).2) ∧
      (onPeerCall timer call prev).1.incoming = Slot.link call ∧
      (onPeerCall timer call prev).1.incomingTimeout = some timer ∧
      (onPeerCall timer call prev).1.video =
        decide (call.metadata.bind (fun m => m.type) ≠ some "audio") ∧
      (onPeerCall timer call prev).1.active = prev.active ∧
      (clientStep (ClientEvent.incomingLink call) w).effects =
        w.effects ++ [Effect.setTimeout w.nextTimer 30000] ∧
      (clientStep (ClientEvent.incomingLink call) w).timers =
        w.timers ++ [{ id := w.nextTimer, call := call, socket := w.peerSocket }] := by
  refine ⟨rfl, ?_, rfl, rfl, rfl, rfl, rfl, rfl⟩
  intro preferVideo h
  simp [onPeerCall] at h

/-- C13: in the first session after login the `socket` captured by the busy-timeout callback is
null; when the timeout of the pending call of Rui fires, `socket.emit` throws: no Busy event is
registered, the link is not closed and the request stays pending. -/
theorem busy_timeout_throws_on_null_socket :
    (clientRun [ClientEvent.socketPeerInit 1, ClientEvent.incomingLink exCall1]
        (initialWorld 1)).timers = [{ id := 1, call := exCall1, socket := none }] ∧
      (clientRun [ClientEvent.socketPeerInit 1, ClientEvent.incomingLink exCall1,
          ClientEvent.timerFired 1] (initialWorld 1)).effects =
        [Effect.setTimeout 1 30000, Effect.thrown nullSocketError] ∧
      (clientRun [ClientEvent.socketPeerInit 1, ClientEvent.incomingLink exCall1,
          ClientEvent.timerFired 1] (initialWorld 1)).callState.incoming = Slot.link exCall1 := by
  decide

/-- C14 (as stated) fails: the first call of Rui is terminated remotely (its timer stays
pending), Rui calls again from the same peer address; when the timer of the first call fires,
the pending request is the second call, yet a Busy event is emitted, the first link is closed
and the pending request is cleared. -/
theorem busy_timeout_same_peer_counterexample :
    (clientRun [ClientEvent.socketPeerInit 1, ClientEvent.socketPeerInit 2,
        ClientEvent.incomingLink exCall1, ClientEvent.callTermination,
        ClientEvent.incomingLink exCall2] (initialWorld 1)).callState.incoming =
        Slot.link exCall2 ∧
      exCall2 ≠ exCall1 ∧
      (clientRun [ClientEvent.socketPeerInit 1, ClientEvent.socketPeerInit 2,
        ClientEvent.incomingLink exCall1, ClientEvent.callTermination,
        ClientEvent.incomingLink exCall2, ClientEvent.timerFired 1]
        (initialWorld 1)).callState.incoming = Slot.empty ∧
      (clientRun [ClientEvent.socketPeerInit 1, ClientEvent.socketPeerInit 2,
        ClientEvent.incomingLink exCall1, ClientEvent.callTermination,
        ClientEvent.incomingLink exCall2, ClientEvent.timerFired 1]
        (initialWorld 1)).effects =
        [Effect.disconnectSocket 1, Effect.setTimeout 1 30000, Effect.setTimeout 2 30000,
         Effect.emit 1 (RelayMsg.registerCallEvent 1 (PartyId.user 2) true CallEventStatus.busy),
         Effect.closeLink 1] := by
  decide

/-- C14 (amended): when no request is pending, or the pending value is the group flag, or the
pending request comes from another peer address than the call of the timer, the firing of the
busy-timeout leaves the call state unchanged, has no effect and does not throw, whatever the
captured socket. -/
theorem busy_timeout_ignores_other_peer (socket : Option Nat) (userId : Nat)
    (call : MediaConnection) (prev : CallState)
    (hother : prev.incoming = Slot.empty ∨ prev.incoming = Slot.flag ∨
      ∃ pending, prev.incoming = Slot.link pending ∧ pending.peer ≠ call.peer) :
    callTimeoutFired socket userId call prev = { state := prev, effects := [], error := none } := by
  unfold callTimeoutFired
  rcases hother with h | h | ⟨pending, h, hne⟩
  · rw [h]
  · rw [h]
  · rw [h]
    simp [hne]

/-- Witness for the amended C14: the timer of Rui's call fires while nothing is pending. -/
theorem busy_timeout_ignores_other_peer_witness :
    callTimeoutFired (some 1) 1 exCall1 idleCallState =
      { state := idleCallState, effects := [], error := none } :=
  busy_timeout_ignores_other_peer (some 1) 1 exCall1 idleCallState (Or.inl rfl)

/-- C15: `answerCall` clears the busy-timeout only in the continuation of the media request.
After `answer` the timer of Rui's call is still pending; when it fires before the media
resolves, a Busy event is emitted and the link is closed; the later continuation answers the
closed link and only then clears the timer. -/
theorem answer_leaves_timer_pending :
    (clientRun [ClientEvent.socketPeerInit 1, ClientEvent.socketPeerInit 2,
        ClientEvent.incomingLink exCall1, ClientEvent.answer] (initialWorld 1)).timers =
        [{ id := 1, call := exCall1, socket := some 1 }] ∧
      (clientRun [ClientEvent.socketPeerInit 1, ClientEvent.socketPeerInit 2,
        ClientEvent.incomingLink exCall1, ClientEvent.answer] (initialWorld 1)).effects =
        [Effect.disconnectSocket 1, Effect.setTimeout 1 30000, Effect.getMediaStream true] ∧
      (clientRun [ClientEvent.socketPeerInit 1, ClientEvent.socketPeerInit 2,
        ClientEvent.incomingLink exCall1, ClientEvent.answer, ClientEvent.timerFired 1,
        ClientEvent.mediaResolved exLocalStream] (initialWorld 1)).effects =
        [Effect.disconnectSocket 1, Effect.setTimeout 1 30000, Effect.getMediaStream true,
         Effect.emit 1 (RelayMsg.registerCallEvent 1 (PartyId.user 2) true CallEventStatus.busy),
         Effect.closeLink 1, Effect.answerLink 1 exLocalStream, Effect.clearTimeout 1] := by
  decide

/-! ## The socket of the handlers defined in the component body -/

theorem clientStep_socket (ev : ClientEvent) (w : ClientWorld) (h : w.socket ≠ none) :
    (clientStep ev w).socket ≠ none := by
  cases ev with
  | socketPeerInit newSocket => simp [clientStep]
  | incomingLink call => simpa [clientStep] using h
  | timerFired timer =>
    simp only [clientStep]
    split
    · exact h
    · simpa [applyOutcome] using h
  | answer =>
    simp only [clientStep]
    split
    · exact h
    · simpa using h
  | mediaResolved stream =>
    simp only [clientStep]
    split
    · exact h
    · simpa [applyOutcome] using h
  | mediaRejected err =>
    simp only [clientStep]
    split
    · exact h
    · simpa using h
  | remoteStream stream => simpa [clientStep] using h
  | reject dateStr timeStr => simpa [clientStep, applyOutcome] using h
  | endCall => simpa [clientStep, applyOutcome] using h
  | callTermination =>
    simp only [clientStep]
    split
    · exact h
    · simpa [applyOutcome] using h
  | screenShareStarted stream link => simpa [clientStep] using h
  | screenShareStopped => simpa [clientStep] using h

theorem clientRun_socket (evs : List ClientEvent) (w : ClientWorld) (h : w.socket ≠ none) :
    (clientRun evs w).socket ≠ none := by
  induction evs generalizing w with
  | nil => exact h
  | cons ev rest ih => exact ih _ (clientStep_socket ev w h)

theorem clientRun_socket_after_init (s0 userId : Nat) (evs : List ClientEvent) :
    ∃ s, (clientRun (ClientEvent.socketPeerInit s0 :: evs) (initialWorld userId)).socket =
      some s := by
  have h := clientRun_socket evs (clientStep (ClientEvent.socketPeerInit s0) (initialWorld userId))
    (by simp [clientStep])
  cases hs : (clientRun (ClientEvent.socketPeerInit s0 :: evs) (initialWorld userId)).socket with
  | none => exact absurd hs h
  | some s => exact ⟨s, rfl⟩

/-! ## Answer, reject and end -/

/-- C16: with no pending incoming request, `answerCall` returns at once (no continuation, no
effect) and `rejectCall` has no effect, does not throw, keeps the active call and leaves the
pending field empty; a second `rejectCall` changes nothing more, and in the client `answer`
is the identity. -/
theorem answer_reject_noop_when_idle (socket : Option Nat) (userId : Nat)
    (dateStr timeStr : String) (callState : CallState) (w : ClientWorld)
    (hidle : callState.incoming = Slot.empty) (hw : w.callState.incoming = Slot.empty) :
    answerCall callState = (none, []) ∧
      clientStep ClientEvent.answer w = w ∧
      (rejectCall socket userId dateStr timeStr callState).effects = [] ∧
      (rejectCall socket userId dateStr timeStr callState).error = none ∧
      (rejectCall socket userId dateStr timeStr callState).state.active = callState.active ∧
      (rejectCall socket userId dateStr timeStr callState).state.incoming = Slot.empty ∧
      rejectCall socket userId dateStr timeStr
          (rejectCall socket userId dateStr timeStr callState).state =
        rejectCall socket userId dateStr timeStr callState := by
  have ha : answerCall callState = (none, []) := by
    unfold answerCall
    rw [hidle]
  have hwa : answerCall w.callState = (none, []) := by
    unfold answerCall
    rw [hw]
  have hr : rejectCall socket userId dateStr timeStr callState =
      { state := { callState with incoming := Slot.empty, incomingTimeout := none },
        effects := [], error := none } := by
    unfold rejectCall
    rw [hidle]
  refine ⟨ha, ?_, ?_, ?_, ?_, ?_, ?_⟩
  · simp only [clientStep, hwa]
  · rw [hr]
  · rw [hr]
  · rw [hr]
  · rw [hr]
  · rw [hr]
    simp [rejectCall]

/-- Witness for C16: the idle call state in the client right after login. -/
theorem answer_reject_noop_when_idle_witness :
    answerCall idleCallState = (none, []) ∧
      clientStep ClientEvent.answer (initialWorld 1) = initialWorld 1 ∧
      (rejectCall (some 1) 1 "Jan 1" "10:00" idleCallState).effects = [] :=
  ⟨(answer_reject_noop_when_idle (some 1) 1 "Jan 1" "10:00" idleCallState (initialWorld 1)
      rfl rfl).1,
   (answer_reject_noop_when_idle (some 1) 1 "Jan 1" "10:00" idleCallState (initialWorld 1)
      rfl rfl).2.1,
   (answer_reject_noop_when_idle (some 1) 1 "Jan 1" "10:00" idleCallState (initialWorld 1)
      rfl rfl).2.2.1⟩

/-- C17: with a pending incoming direct call and a socket, `rejectCall` clears the stored
busy-timeout, emits one cancellation record and one `call_termination`, both addressed to
`callerUserId`, else the metadata user id, else the peer address, closes the pending link,
does not throw, and leaves no pending request and no stored timeout. -/
theorem reject_pending_direct_call (s userId : Nat) (dateStr timeStr : String)
    (callState : CallState) (call : MediaConnection)
    (hpending : callState.incoming = Slot.link call) :
    (rejectCall (some s) userId dateStr timeStr callState).effects =
        (match callState.incomingTimeout with
         | some timer => [Effect.clearTimeout timer]
         | none => []) ++
        [Effect.emit s (RelayMsg.registerCallEvent userId
           (callerParty callState.callerUserId (call.metadata.bind (fun m => m.userId))
             (some call.peer))
           callState.video (CallEventStatus.cancelledAt dateStr timeStr)),
         Effect.emit s (RelayMsg.callTermination
           (callerParty callState.callerUserId (call.metadata.bind (fun m => m.userId))
             (some call.peer))),
         Effect.closeLink call.id] ∧
      (∀ timer, callState.incomingTimeout = some timer →
        Effect.clearTimeout timer ∈
          (rejectCall (some s) userId dateStr timeStr callState).effects) ∧
      (rejectCall (some s) userId dateStr timeStr callState).error = none ∧
      (rejectCall (some s) userId dateStr timeStr callState).state.incoming = Slot.empty ∧
      (rejectCall (some s) userId dateStr timeStr callState).state.incomingTimeout = none ∧
      (∀ id, callState.callerUserId = some id → 0 < id →
        callerParty callState.callerUserId (call.metadata.bind (fun m => m.userId))
          (some call.peer) = PartyId.user id) ∧
      (∀ id, truthyId callState.callerUserId = none →
        call.metadata.bind (fun m => m.userId) = some id → 0 < id →
        callerParty callState.callerUserId (call.metadata.bind (fun m => m.userId))
          (some call.peer) = PartyId.user id) ∧
      (truthyId callState.callerUserId = none →
        truthyId (call.metadata.bind (fun m => m.userId)) = none →
        callerParty callState.callerUserId (call.metadata.bind (fun m => m.userId))
          (some call.peer) = PartyId.peer call.peer) := by
  have heff : (rejectCall (some s) userId dateStr timeStr callState).effects =
      (match callState.incomingTimeout with
       | some timer => [Effect.clearTimeout timer]
       | none => []) ++
      [Effect.emit s (RelayMsg.registerCallEvent userId
         (callerParty callState.callerUserId (call.metadata.bind (fun m => m.userId))
           (some call.peer))
         callState.video (CallEventStatus.cancelledAt dateStr timeStr)),
       Effect.emit s (RelayMsg.callTermination
         (callerParty callState.callerUserId (call.metadata.bind (fun m => m.userId))
           (some call.peer))),
       Effect.closeLink call.id] := by
    simp [rejectCall, hpending, Slot.metaUserId]
  refine ⟨heff, ?_, ?_, ?_, ?_, ?_, ?_, ?_⟩
  · intro timer htimer
    rw [heff, htimer]
    simp
  · simp [rejectCall, hpending]
  · simp [rejectCall, hpending]
  · simp [rejectCall, hpending]
  · intro id h hpos
    simp [callerParty, h, truthyId_pos id hpos]
  · intro id h1 h2 hpos
    simp [callerParty, h1, h2, truthyId_pos id hpos]
  · intro h1 h2
    simp [callerParty, h1, h2]

/-- Witness for C17: Rui's call is pending under timer 1 and is rejected. -/
theorem reject_pending_direct_call_witness :
    (rejectCall (some 1) 1 "Jan 1" "10:00" exRinging).effects =
        [Effect.clearTimeout 1,
         Effect.emit 1 (RelayMsg.registerCallEvent 1 (PartyId.user 2) true
           (CallEventStatus.cancelledAt "Jan 1" "10:00")),
         Effect.emit 1 (RelayMsg.callTermination (PartyId.user 2)),
         Effect.closeLink 1] ∧
      (rejectCall (some 1) 1 "Jan 1" "10:00" exRinging).state.incoming = Slot.empty :=
  ⟨(reject_pending_direct_call 1 1 "Jan 1" "10:00" exRinging exCall1 rfl).1.trans
      (by decide),
   (reject_pending_direct_call 1 1 "Jan 1" "10:00" exRinging exCall1 rfl).2.2.2.1⟩

theorem canceledRecords_stopTracks (r : Option MediaStream) :
    canceledRecords (stopTracks r) = [] := by
  cases r with
  | none => rfl
  | some stream =>
    unfold canceledRecords stopTracks
    rw [List.filter_eq_nil_iff]
    intro e he
    obtain ⟨t, _, rfl⟩ := List.mem_map.1 he
    simp [isCanceledRecord]

theorem canceledRecords_append (a b : List Effect) :
    canceledRecords (a ++ b) = canceledRecords a ++ canceledRecords b := by
  unfold canceledRecords
  exact List.filter_append a b

/-- C18 (as stated) fails: Rui's incoming call is answered and ended before any remote stream
arrives; `endCall` emits the termination notice and closes the link but registers no
'Canceled' record. -/
theorem endCall_answered_incoming_counterexample :
    (clientRun [ClientEvent.socketPeerInit 1, ClientEvent.incomingLink exCall1,
        ClientEvent.answer, ClientEvent.mediaResolved exLocalStream]
        (initialWorld 1)).callState.active = Slot.link exCall1 ∧
      (clientRun [ClientEvent.socketPeerInit 1, ClientEvent.incomingLink exCall1,
        ClientEvent.answer, ClientEvent.mediaResolved exLocalStream]
        (initialWorld 1)).callState.hasRemoteStream = false ∧
      canceledRecords (clientRun [ClientEvent.socketPeerInit 1,
        ClientEvent.incomingLink exCall1, ClientEvent.answer,
        ClientEvent.mediaResolved exLocalStream, ClientEvent.endCall]
        (initialWorld 1)).effects = [] ∧
      (clientRun [ClientEvent.socketPeerInit 1, ClientEvent.incomingLink exCall1,
        ClientEvent.answer, ClientEvent.mediaResolved exLocalStream, ClientEvent.endCall]
        (initialWorld 1)).effects =
        [Effect.setTimeout 1 30000, Effect.getMediaStream true,
         Effect.answerLink 1 exLocalStream, Effect.clearTimeout 1,
         Effect.emit 1 (RelayMsg.callTermination (PartyId.user 2)), Effect.closeLink 1,
         Effect.stopTrack 10, Effect.stopTrack 11] := by
  decide

/-- C18 (amended): for every active call and a socket, `endCall` registers exactly one
'Canceled' record when `targetUserId` is set (an outgoing call) and no remote stream was
received, and none otherwise: none when a remote stream was received, and none for a call
without `targetUserId`, such as an answered incoming call. -/
theorem endCall_canceled_iff_outgoing_unconnected (s userId : Nat) (refs : StreamRefs)
    (callState : CallState) (hactive : callState.active ≠ Slot.empty) :
    (∀ target, callState.targetUserId = some target → 0 < target →
        callState.hasRemoteStream = false →
        canceledRecords (endCall (some s) userId refs callState).effects =
          [Effect.emit s (RelayMsg.registerCallEvent userId (PartyId.user target)
            callState.video CallEventStatus.canceled)]) ∧
      (callState.hasRemoteStream = true →
        canceledRecords (endCall (some s) userId refs callState).effects = []) ∧
      (truthyId callState.targetUserId = none →
        canceledRecords (endCall (some s) userId refs callState).effects = []) := by
  have hform : canceledRecords (endCall (some s) userId refs callState).effects =
      (match truthyId callState.targetUserId with
       | some target =>
         if callState.hasRemoteStream then []
         else [Effect.emit s (RelayMsg.registerCallEvent userId (PartyId.user target)
           callState.video CallEventStatus.canceled)]
       | none => []) := by
    have hrec_nil : canceledRecords [] = [] := rfl
    have hrec_term : ∀ p, canceledRecords [Effect.emit s (RelayMsg.callTermination p)] = [] :=
      fun _ => rfl
    have hrec_close : ∀ l, canceledRecords [Effect.closeLink l] = [] := fun _ => rfl
    have hrec_cancel : ∀ f t v,
        canceledRecords [Effect.emit s (RelayMsg.registerCallEvent f t v
          CallEventStatus.canceled)] =
        [Effect.emit s (RelayMsg.registerCallEvent f t v CallEventStatus.canceled)] :=
      fun _ _ _ => rfl
    unfold endCall
    cases hact : callState.active with
    | empty => exact absurd hact hactive
    | link call =>
      cases ht : truthyId callState.targetUserId with
      | none =>
        cases hc : truthyId callState.callerUserId with
        | none =>
          simp only [Option.orElse, canceledRecords_append, canceledRecords_stopTracks,
            hrec_close, List.append_nil]
        | some c =>
          simp only [Option.orElse, canceledRecords_append, canceledRecords_stopTracks,
            hrec_term, hrec_close, hrec_nil, List.append_nil]
      | some t =>
        cases hrs : callState.hasRemoteStream
        · simp only [Option.orElse, canceledRecords_append, canceledRecords_stopTracks,
            hrec_term, hrec_close, hrec_cancel, List.append_nil, List.nil_append,
            Bool.false_eq_true, if_false]
        · simp only [Option.orElse, canceledRecords_append, canceledRecords_stopTracks,
            hrec_term, hrec_close, hrec_nil, List.append_nil, if_true]
    | flag =>
      cases ht : truthyId callState.targetUserId with
      | none =>
        cases hc : truthyId callState.callerUserId with
        | none =>
          simp only [Option.orElse, canceledRecords_append, canceledRecords_stopTracks,
            hrec_nil, List.append_nil]
        | some c =>
          simp only [Option.orElse, canceledRecords_append, canceledRecords_stopTracks,
            hrec_term, hrec_nil, List.append_nil]
      | some t =>
        cases hrs : callState.hasRemoteStream
        · simp only [Option.orElse, canceledRecords_append, canceledRecords_stopTracks,
            hrec_term, hrec_nil, hrec_cancel, List.append_nil, List.nil_append,
            Bool.false_eq_true, if_false]
        · simp only [Option.orElse, canceledRecords_append, canceledRecords_stopTracks,
            hrec_term, hrec_nil, List.append_nil, if_true]
  refine ⟨?_, ?_, ?_⟩
  · intro target ht hpos hrs
    rw [hform, ht, truthyId_pos target hpos, hrs]
    simp
  · intro hrs
    rw [hform, hrs]
    cases truthyId callState.targetUserId <;> simp
  · intro ht
    rw [hform, ht]

/-- Witness for the amended C18: an outgoing call to user 2 without remote stream is ended. -/
theorem endCall_canceled_iff_outgoing_unconnected_witness :
    canceledRecords (endCall (some 1) 1
        { localStream := some exLocalStream, remoteStream := none, remoteScreenStream := none }
        exOutgoing).effects =
      [Effect.emit 1 (RelayMsg.registerCallEvent 1 (PartyId.user 2) exOutgoing.video
        CallEventStatus.canceled)] :=
  (endCall_canceled_iff_outgoing_unconnected 1 1
    { localStream := some exLocalStream, remoteStream := none, remoteScreenStream := none }
    exOutgoing (by decide)).1 2 rfl (by decide) rfl

/-- C19: an answered call with a remote stream and a running screen share is ended. The call
state becomes idle and the camera, microphone and remote tracks are stopped, but the
display-capture track 30 of the screen share is not: `endCall` does not reach the stream held
in `screenStreamRef`, which stays stored and live. -/
theorem endCall_leaves_display_track_live :
    (clientRun [ClientEvent.socketPeerInit 1, ClientEvent.incomingLink exCall1,
        ClientEvent.answer, ClientEvent.mediaResolved exLocalStream,
        ClientEvent.remoteStream exRemoteStream,
        ClientEvent.screenShareStarted exDisplayStream 5, ClientEvent.endCall]
        (initialWorld 1)).callState = idleCallState ∧
      (clientRun [ClientEvent.socketPeerInit 1, ClientEvent.incomingLink exCall1,
        ClientEvent.answer, ClientEvent.mediaResolved exLocalStream,
        ClientEvent.remoteStream exRemoteStream,
        ClientEvent.screenShareStarted exDisplayStream 5, ClientEvent.endCall]
        (initialWorld 1)).screenStream = some exDisplayStream ∧
      ([10, 11, 20, 21].map (trackLive (clientRun [ClientEvent.socketPeerInit 1,
        ClientEvent.incomingLink exCall1, ClientEvent.answer,
        ClientEvent.mediaResolved exLocalStream, ClientEvent.remoteStream exRemoteStream,
        ClientEvent.screenShareStarted exDisplayStream 5, ClientEvent.endCall]
        (initialWorld 1)).effects)) = [false, false, false, false] ∧
      trackLive (clientRun [ClientEvent.socketPeerInit 1, ClientEvent.incomingLink exCall1,
        ClientEvent.answer, ClientEvent.mediaResolved exLocalStream,
        ClientEvent.remoteStream exRemoteStream,
        ClientEvent.screenShareStarted exDisplayStream 5, ClientEvent.endCall]
        (initialWorld 1)).effects 30 = true := by
  decide

/-- C20: the `call_termination` listener reads the `callState` captured when the socket was
set. Rui's call is pending under timer 1 when the notice arrives: the call state becomes idle,
but the timer is not cleared (it stays pending) and the pending link is not closed. -/
theorem call_termination_uses_captured_state :
    (clientRun [ClientEvent.socketPeerInit 1, ClientEvent.incomingLink exCall1]
        (initialWorld 1)).callState.incoming = Slot.link exCall1 ∧
      (clientRun [ClientEvent.socketPeerInit 1, ClientEvent.incomingLink exCall1]
        (initialWorld 1)).listenerCallState = idleCallState ∧
      (clientRun [ClientEvent.socketPeerInit 1, ClientEvent.incomingLink exCall1,
        ClientEvent.callTermination] (initialWorld 1)).callState = idleCallState ∧
      (clientRun [ClientEvent.socketPeerInit 1, ClientEvent.incomingLink exCall1,
        ClientEvent.callTermination] (initialWorld 1)).effects =
        [Effect.setTimeout 1 30000] ∧
      (clientRun [ClientEvent.socketPeerInit 1, ClientEvent.incomingLink exCall1,
        ClientEvent.callTermination] (initialWorld 1)).timers =
        [{ id := 1, call := exCall1, socket := none }] := by
  decide

/-! ## Simulated ringing -/

/-- C21: when the lookup returns no address (no response, no `peerId`, or the string 'null'),
the callback stores the simulated call and starts one 6000 ms timer, without a media request
and without a link; when the timer fires on a call state that is still simulated, one Busy
event from the caller to the target is emitted and the call state becomes idle; when the call
state is not simulated any more, the timer changes nothing and emits nothing. -/
theorem simulated_ring_busy (timer : Nat) (response : PeerIdResponse) (targetUserId : Nat)
    (video : Bool) (selectedUser : SelectedUser) (prev cur : CallState) (s userId : Nat)
    (hno : noPeerId response = true) :
    (startCallOnResponse timer response targetUserId video selectedUser prev).2 =
        [Effect.setTimeout timer 6000] ∧
      (∀ preferVideo, Effect.getMediaStream preferVideo ∉
        (startCallOnResponse timer response targetUserId video selectedUser prev).2) ∧
      (∀ link peer type, Effect.openLink link peer type ∉
        (startCallOnResponse timer response targetUserId video selectedUser prev).2) ∧
      (startCallOnResponse timer response targetUserId video selectedUser prev).1.isSimulated =
        true ∧
      (startCallOnResponse timer response targetUserId video selectedUser prev).1.incoming =
        Slot.empty ∧
      (startCallOnResponse timer response targetUserId video selectedUser prev).1.targetUserId =
        some targetUserId ∧
      simulatedRingFired s userId targetUserId video
          (startCallOnResponse timer response targetUserId video selectedUser prev).1 =
        { state := idleCallState,
          effects := [Effect.emit s (RelayMsg.registerCallEvent userId
            (PartyId.user targetUserId) video CallEventStatus.busy)],
          error := none } ∧
      (cur.isSimulated = true →
        simulatedRingFired s userId targetUserId video cur =
          { state := idleCallState,
            effects := [Effect.emit s (RelayMsg.registerCallEvent userId
              (PartyId.user targetUserId) video CallEventStatus.busy)],
            error := none }) ∧
      (cur.isSimulated = false →
        simulatedRingFired s userId targetUserId video cur =
          { state := cur, effects := [], error := none }) ∧
      noPeerId none = true ∧ noPeerId (some none) = true ∧
      noPeerId (some (some "null")) = true := by
  have hstart : startCallOnResponse timer response targetUserId video selectedUser prev =
      ({ idleCallState with
          incoming := Slot.empty, active := Slot.flag, video := video,
          callerName := some selectedUser.username, callerAvatar := selectedUser.avatar,
          targetUserId := some targetUserId, isSimulated := true },
        [Effect.setTimeout timer 6000]) := by
    unfold startCallOnResponse
    rw [if_pos hno]
  rw [hstart]
  refine ⟨rfl, ?_, ?_, rfl, rfl, rfl, ?_, ?_, ?_, rfl, rfl, by decide⟩
  · intro preferVideo h
    simp at h
  · intro link peer type h
    simp at h
  · simp [simulatedRingFired]
  · intro h
    simp [simulatedRingFired, h]
  · intro h
    simp [simulatedRingFired, h]

/-- Witness for C21: user 1 calls user 2, the lookup answers with a null `peerId`, and the
ring timer fires on the simulated call. -/
theorem simulated_ring_busy_witness :
    (startCallOnResponse 7 (some none) 2 true { username := "Rui", avatar := none }
        idleCallState).2 = [Effect.setTimeout 7 6000] ∧
      simulatedRingFired 1 1 2 true
          (startCallOnResponse 7 (some none) 2 true { username := "Rui", avatar := none }
            idleCallState).1 =
        { state := idleCallState,
          effects := [Effect.emit 1 (RelayMsg.registerCallEvent 1 (PartyId.user 2) true
            CallEventStatus.busy)],
          error := none } :=
  ⟨(simulated_ring_busy 7 (some none) 2 true { username := "Rui", avatar := none }
      idleCallState idleCallState 1 1 rfl).1,
   (simulated_ring_busy 7 (some none) 2 true { username := "Rui", avatar := none }
      idleCallState idleCallState 1 1 rfl).2.2.2.2.2.2.1⟩

/-! ## Group mesh -/

/-- C22: the engine of user 1 receives the announcement of user 2 twice. The roster entry that
`handlePeerDiscovered` tests is written only by the `stream` handler, so without a stream
event in between both announcements dial (links 100 and 101); with the stream event in
between the second is skipped; the announcement of user 1 itself dials nothing. -/
theorem peer_discovered_dials_twice :
    dialsTo (groupRun [GroupEvent.peerDiscovered exAnn2, GroupEvent.peerDiscovered exAnn2]
        exEngine1) 2 =
        [GroupEffect.dial 100 "peer-2" 2, GroupEffect.dial 101 "peer-2" 2] ∧
      dialsTo (groupRun [GroupEvent.peerDiscovered exAnn2,
        GroupEvent.dialStream 100 exRemoteStream, GroupEvent.peerDiscovered exAnn2]
        exEngine1) 2 = [GroupEffect.dial 100 "peer-2" 2] ∧
      (groupRun [GroupEvent.peerDiscovered (announcementOf exEngine1)] exEngine1).effects =
        exEngine1.effects := by
  decide

/-- C23: users 1 and 2 are in session "g1"; each announces and both announcements are
delivered to both. Each engine dials the other, so the pair is connected by two primary links
(100 from user 1, 200 from user 2). -/
theorem mesh_pair_has_two_links :
    primaryLinks (meshAnnounceAll [exEngine1, exEngine2]) 1 2 =
        [GroupEffect.dial 100 "peer-2" 2, GroupEffect.dial 200 "peer-1" 1] ∧
      (primaryLinks (meshAnnounceAll [exEngine1, exEngine2]) 1 2).length = 2 := by
  decide

theorem rosterDelete_cons (k : Option Nat) (p : Participant) (rest : Roster)
    (key : Option Nat) :
    rosterDelete ((k, p) :: rest) key =
      if k = key then rosterDelete rest key else (k, p) :: rosterDelete rest key := by
  unfold rosterDelete
  by_cases h : k = key <;> simp [List.filter_cons, h]

theorem rosterGet_rosterDelete_self (roster : Roster) (key : Option Nat) :
    rosterGet (rosterDelete roster key) key = none := by
  induction roster with
  | nil => rfl
  | cons e rest ih =>
    obtain ⟨k, p⟩ := e
    rw [rosterDelete_cons]
    by_cases h : k = key
    · rw [if_pos h]; exact ih
    · rw [if_neg h]
      simp only [rosterGet, if_neg h]
      exact ih

theorem rosterGet_rosterDelete_ne (roster : Roster) (key k2 : Option Nat) (hne : k2 ≠ key) :
    rosterGet (rosterDelete roster key) k2 = rosterGet roster k2 := by
  induction roster with
  | nil => rfl
  | cons e rest ih =>
    obtain ⟨k, p⟩ := e
    rw [rosterDelete_cons]
    by_cases h : k = key
    · have hk : ¬ k = k2 := fun e => hne (e.symm.trans h)
      rw [if_pos h]
      simp only [rosterGet, if_neg hk]
      exact ih
    · rw [if_neg h]
      by_cases h2 : k = k2
      · simp only [rosterGet, if_pos h2]
      · simp only [rosterGet, if_neg h2]
        exact ih

/-- C24 (as stated) fails: user 2, whose stream holds the tracks 40 and 41, leaves; the
handler deletes the roster entry but has no effect at all: no link is closed and no track is
stopped. -/
theorem peer_leave_counterexample :
    (rosterGet exRoster (some 2)).bind (fun p => p.stream) =
        some { tracks := [{ id := 40, isVideo := false }, { id := 41, isVideo := true }] } ∧
      (handlePeerLeave 2 exRoster).2 = [] ∧
      rosterGet (handlePeerLeave 2 exRoster).1 (some 2) = none := by
  decide

/-- C24 (amended): for every roster and every peer, handling `group_call_leave` for that peer
removes the peer from the roster and leaves every other entry unchanged. -/
theorem peer_leave_removes_entry (userId : Nat) (roster : Roster) :
    rosterGet (handlePeerLeave userId roster).1 (some userId) = none ∧
      (∀ key, key ≠ some userId →
        rosterGet (handlePeerLeave userId roster).1 key = rosterGet roster key) ∧
      ∀ entry, entry ∈ (handlePeerLeave userId roster).1 ↔
        entry ∈ roster ∧ entry.1 ≠ some userId := by
  refine ⟨rosterGet_rosterDelete_self roster (some userId),
    fun key hne => rosterGet_rosterDelete_ne roster (some userId) key hne, ?_⟩
  intro entry
  simp [handlePeerLeave, rosterDelete, List.mem_filter]

/-- Witness for the amended C24: user 2 leaves, the entry of user 3 stays. -/
theorem peer_leave_removes_entry_witness :
    rosterGet (handlePeerLeave 2 exRoster).1 (some 2) = none ∧
      rosterGet (handlePeerLeave 2 exRoster).1 (some 3) = rosterGet exRoster (some 3) :=
  ⟨(peer_leave_removes_entry 2 exRoster).1,
   (peer_leave_removes_entry 2 exRoster).2.1 (some 3) (by decide)⟩

theorem mem_teardownStops (roster : Roster) (eff : GroupEffect) :
    eff ∈ teardownStops roster ↔
      ∃ entry ∈ roster, ∃ stream, entry.2.stream = some stream ∧
        ∃ t ∈ stream.tracks, eff = GroupEffect.stopTrack t.id := by
  induction roster with
  | nil => simp [teardownStops]
  | cons e rest ih =>
    obtain ⟨k, p⟩ := e
    simp only [teardownStops, List.mem_append, ih, List.mem_cons, exists_eq_or_imp]
    constructor
    · rintro (h | h)
      · left
        cases hs : p.stream with
        | none => simp [hs] at h
        | some stream =>
          simp only [hs, List.mem_map] at h
          obtain ⟨t, ht, rfl⟩ := h
          exact ⟨stream, rfl, t, ht, rfl⟩
      · right; exact h
    · rintro (⟨stream, hs, t, ht, rfl⟩ | h)
      · left
        have hs2 : p.stream = some stream := hs
        simp only [hs2, List.mem_map]
        exact ⟨t, ht, rfl⟩
      · right; exact h

/-- C25: for every roster, the unmount cleanup stops every track of every participant stream
held in the roster, stops nothing else, and leaves the roster empty. -/
theorem teardown_stops_all (roster : Roster) (e : GroupEngine) :
    (groupTeardown roster).1 = [] ∧
      (∀ entry ∈ roster, ∀ stream, entry.2.stream = some stream → ∀ t ∈ stream.tracks,
        GroupEffect.stopTrack t.id ∈ (groupTeardown roster).2) ∧
      (∀ eff ∈ (groupTeardown roster).2,
        ∃ entry ∈ roster, ∃ stream, entry.2.stream = some stream ∧
          ∃ t ∈ stream.tracks, eff = GroupEffect.stopTrack t.id) ∧
      (groupStep GroupEvent.teardown e).roster = [] ∧
      (groupStep GroupEvent.teardown e).effects = e.effects ++ (groupTeardown e.roster).2 := by
  refine ⟨rfl, ?_, ?_, rfl, rfl⟩
  · intro entry hentry stream hs t ht
    exact (mem_teardownStops roster _).2 ⟨entry, hentry, stream, hs, t, ht, rfl⟩
  · intro eff heff
    exact (mem_teardownStops roster eff).1 heff

/-- Witness for C25: the roster with users 2 and 3; track 41 of user 2 is stopped. -/
theorem teardown_stops_all_witness :
    (groupTeardown exRoster).1 = [] ∧
      GroupEffect.stopTrack 41 ∈ (groupTeardown exRoster).2 :=
  ⟨(teardown_stops_all exRoster exEngine1).1,
   (teardown_stops_all exRoster exEngine1).2.1
     (some 2, { stream := some { tracks := [{ id := 40, isVideo := false },
                                              { id := 41, isVideo := true }] },
                username := some "Rui", avatar := none })
     (by decide)
     { tracks := [{ id := 40, isVideo := false }, { id := 41, isVideo := true }] } rfl
     { id := 41, isVideo := true } (by decide)⟩

/-! ## Screen share and further incoming links -/

/-- C26 (as stated) fails: in the group call "g1" that user 1 started, the call state names
neither a peer address nor another party; a screen share is started and stopped: the display
track is stopped, but no secondary link exists to close and no `call_screen_share_change` is
emitted. -/
theorem screen_share_stop_counterexample :
    (clientStep (ClientEvent.screenShareStarted exDisplayStream 7) exGroupWorld).isSharingScreen =
        true ∧
      (clientStep (ClientEvent.screenShareStarted exDisplayStream 7) exGroupWorld).screenStream =
        some exDisplayStream ∧
      (clientStep ClientEvent.screenShareStopped
        (clientStep (ClientEvent.screenShareStarted exDisplayStream 7) exGroupWorld)).effects =
        [Effect.stopTrack 30] := by
  decide

/-- C26 (amended): after `start()`, `stop()` stops every captured display track, closes the
secondary link when `start()` opened one (the call state names a peer address), clears both
references, sets sharing to false, and emits one `call_screen_share_change` with
`isSharing = false` when the call state names another party and the socket is set, and none
otherwise; `start()` and `stop()` leave the stream references of the primary call and the
call state unchanged. -/
theorem screen_share_stop_effects (w : ClientWorld) (stream : MediaStream) (link : Nat) :
    (clientStep ClientEvent.screenShareStopped
        (clientStep (ClientEvent.screenShareStarted stream link) w)).effects =
        (clientStep (ClientEvent.screenShareStarted stream link) w).effects ++
          stream.tracks.map (fun t => Effect.stopTrack t.id) ++
          (match targetPeerId w.callState with
           | some _ => [Effect.closeLink link]
           | none => []) ++
          (match otherPartyId w.callState, w.socket with
           | some other, some s => [Effect.emit s (RelayMsg.callScreenShareChange other false)]
           | _, _ => []) ∧
      (clientStep ClientEvent.screenShareStopped
        (clientStep (ClientEvent.screenShareStarted stream link) w)).screenStream = none ∧
      (clientStep ClientEvent.screenShareStopped
        (clientStep (ClientEvent.screenShareStarted stream link) w)).screenCall = none ∧
      (clientStep ClientEvent.screenShareStopped
        (clientStep (ClientEvent.screenShareStarted stream link) w)).isSharingScreen = false ∧
      (clientStep (ClientEvent.screenShareStarted stream link) w).callState = w.callState ∧
      (clientStep (ClientEvent.screenShareStarted stream link) w).refs = w.refs ∧
      (clientStep ClientEvent.screenShareStopped
        (clientStep (ClientEvent.screenShareStarted stream link) w)).callState = w.callState ∧
      (clientStep ClientEvent.screenShareStopped
        (clientStep (ClientEvent.screenShareStarted stream link) w)).refs = w.refs := by
  refine ⟨?_, rfl, rfl, rfl, rfl, rfl, rfl, rfl⟩
  simp only [clientStep, stopTracks]
  cases targetPeerId w.callState <;> simp

/-- C27 (as stated) fails: while Rui's call is pending, a link from another peer replaces the
pending request and starts a second busy-timeout; during the answered call the secondary link
tagged 'screen' becomes the pending request with a busy-timeout; in the group call "g1" the
mesh link tagged "g1" does too. -/
theorem further_link_counterexample :
    exRinging.incoming = Slot.link exCall1 ∧
      (onPeerCall 2 exCall3 exRinging).1.incoming = Slot.link exCall3 ∧
      (onPeerCall 2 exCall3 exRinging).2 = [Effect.setTimeout 2 30000] ∧
      exAnswered.incoming = Slot.empty ∧ exAnswered.active = Slot.link exCall1 ∧
      (onPeerCall 2 exScreenCall exAnswered).1.incoming = Slot.link exScreenCall ∧
      (onPeerCall 2 exScreenCall exAnswered).2 = [Effect.setTimeout 2 30000] ∧
      (onPeerCall 2 exMeshCall (groupCallState "g1")).1.incoming = Slot.link exMeshCall ∧
      (onPeerCall 2 exMeshCall (groupCallState "g1")).2 = [Effect.setTimeout 2 30000] := by
  decide

/-- C27 (amended): for every call state, a further incoming link leaves the active link
unchanged; a link that is neither tagged 'screen' nor tagged with a group id becomes the
pending request, and exactly one busy-timeout of 30000 ms is started for it. -/
theorem further_link_keeps_active (timer : Nat) (call : MediaConnection) (prev : CallState) :
    (onPeerCall timer call prev).1.active = prev.active ∧
      (call.metadata.bind (fun m => m.type) ≠ some "screen" →
        call.metadata.bind (fun m => m.groupId) = none →
        (onPeerCall timer call prev).1.incoming = Slot.link call ∧
          (onPeerCall timer call prev).1.incomingTimeout = some timer ∧
          (onPeerCall timer call prev).2 = [Effect.setTimeout timer 30000]) :=
  ⟨rfl, fun _ _ => ⟨rfl, rfl, rfl⟩⟩

/-- Witness for the amended C27: a call of Eva arrives during the answered call of Rui. -/
theorem further_link_keeps_active_witness :
    (onPeerCall 2 exCall3 exAnswered).1.active = exAnswered.active ∧
      (onPeerCall 2 exCall3 exAnswered).1.incoming = Slot.link exCall3 ∧
      (onPeerCall 2 exCall3 exAnswered).1.incomingTimeout = some 2 ∧
      (onPeerCall 2 exCall3 exAnswered).2 = [Effect.setTimeout 2 30000] :=
  ⟨(further_link_keeps_active 2 exCall3 exAnswered).1,
   (further_link_keeps_active 2 exCall3 exAnswered).2 (by decide) (by decide)⟩

/-! ## Reconnect, unregistered `set_status` and rejecting a group call -/

theorem mapGet_mapDelete_self (m : OnlineUsers) (k : Nat) : mapGet (mapDelete m k) k = none := by
  cases h : mapGet (mapDelete m k) k with
  | none => rfl
  | some v =>
    have hmem := mapGet_some_mem _ _ _ h
    unfold mapDelete at hmem
    simp [List.mem_filter] at hmem

/-- C28: for a registered user known to the database, whatever the live status, disconnect
removes the entry and persists 'offline', and a following join of the same user stores live
status 'online' and persists 'online'. -/
theorem reconnect_yields_online (conn conn2 : Conn) (st : ServerState) (uid : Nat)
    (user : UserData) (u : User) (now : Int)
    (hconn : conn.currentUserId = some uid) (hpos : 0 < uid)
    (hget : mapGet st.onlineUsers uid = some user)
    (hknown : findUser st.db.users uid = some u) :
    persistedStatus (onDisconnect conn st).1.db uid = some (some Status.offline) ∧
      mapGet (onDisconnect conn st).1.onlineUsers uid = none ∧
      (∃ e, mapGet (onJoin conn2 uid now (onDisconnect conn st).1).2.1.onlineUsers uid =
          some e ∧ e.status = Status.online) ∧
      persistedStatus (onJoin conn2 uid now (onDisconnect conn st).1).2.1.db uid =
        some (some Status.online) := by
  rw [onDisconnect_registered conn st uid user hconn hpos hget]
  have hp : persistedStatus st.db uid = some u.status := by
    simp [persistedStatus, hknown]
  have hfind : findUser (updateUsers st.db.users uid Status.offline) uid =
      some { u with status := some Status.offline } := by
    rw [findUser_updateUsers_self, hknown]
    rfl
  refine ⟨?_, mapGet_mapDelete_self _ _, ?_, ?_⟩
  · rw [persistedStatus_update_self, hp]
    rfl
  · refine ⟨{ socketId := conn2.socketId, lastActive := now, username := u.username,
               avatar := u.avatar, status := Status.online }, ?_, rfl⟩
    simp [onJoin, updateUserStatus, hfind, mapGet_mapSet_self]
  · simp [onJoin, updateUserStatus, hfind, persistedStatus, findUser_updateUsers_self]

/-- Witness for C28: Ana, live status 'invisible', disconnects and joins again. -/
theorem reconnect_yields_online_witness :
    persistedStatus (onDisconnect exAnaConn exState).1.db 1 = some (some Status.offline) ∧
      mapGet (onDisconnect exAnaConn exState).1.onlineUsers 1 = none ∧
      (∃ e, mapGet (onJoin exAnaConn 1 9 (onDisconnect exAnaConn exState).1).2.1.onlineUsers 1 =
          some e ∧ e.status = Status.online) ∧
      persistedStatus (onJoin exAnaConn 1 9 (onDisconnect exAnaConn exState).1).2.1.db 1 =
        some (some Status.online) :=
  reconnect_yields_online exAnaConn exAnaConn exState 1 exAnaEntry exAna 9 rfl (by decide)
    (by decide) (by decide)

theorem onSetStatus_unregistered (conn : Conn) (status : Status) (now : Int)
    (st : ServerState)
    (hnot : ∀ uid, conn.currentUserId = some uid → mapGet st.onlineUsers uid = none) :
    onSetStatus conn status now st = (st, []) := by
  unfold onSetStatus
  cases hc : conn.currentUserId with
  | none => simp [truthyId]
  | some uid =>
    cases uid with
    | zero => simp [truthyId]
    | succ n => simp [truthyId, hnot (n + 1) hc]

/-- C29: `set_status` on a connection whose user is not in the registry changes neither the
registry nor the persisted data and emits nothing. This covers a connection that never
joined, a join with an id unknown to the database, and a user evicted by the pruner, who is
still absent from the registry afterwards. -/
theorem setStatus_unregistered_noop (conn : Conn) (status : Status) (now : Int)
    (st : ServerState)
    (hnot : ∀ uid, conn.currentUserId = some uid → mapGet st.onlineUsers uid = none) :
    onSetStatus conn status now st = (st, []) ∧
      onSetStatus { conn with currentUserId := none } status now st = (st, []) ∧
      (∀ id joinTime, findUser st.db.users id = none → mapGet st.onlineUsers id = none →
        onSetStatus (onJoin conn id joinTime st).1 status now (onJoin conn id joinTime st).2.1 =
          (st, [])) ∧
      (∀ (st0 : ServerState) (uid : Nat) (user : UserData) (pruneTime : Int),
        NodupKeys st0.onlineUsers → conn.currentUserId = some uid →
        mapGet st0.onlineUsers uid = some user → pruneTime - user.lastActive > 130000 →
        onSetStatus conn status now (idlePruner pruneTime st0).1 =
            ((idlePruner pruneTime st0).1, []) ∧
          mapGet (onSetStatus conn status now (idlePruner pruneTime st0).1).1.onlineUsers uid =
            none) := by
  refine ⟨onSetStatus_unregistered conn status now st hnot, ?_, ?_, ?_⟩
  · exact onSetStatus_unregistered _ status now st (by intro uid h; cases h)
  · intro id joinTime hunknown habsent
    have hjoin : onJoin conn id joinTime st = ({ conn with currentUserId := some id }, st, []) := by
      simp [onJoin, hunknown]
    rw [hjoin]
    apply onSetStatus_unregistered
    intro uid h
    cases h
    exact habsent
  · intro st0 uid user pruneTime hnd hconn hget hstale
    have hgone : mapGet (idlePruner pruneTime st0).1.onlineUsers uid = none := by
      rw [idlePruner_eq]
      simp only [prune_registry_filter pruneTime st0.onlineUsers hnd]
      cases h : mapGet (st0.onlineUsers.filter
          (fun e => decide (pruneTime - e.2.lastActive ≤ 130000))) uid with
      | none => rfl
      | some v =>
        have hmem := mapGet_some_mem _ _ _ h
        rw [List.mem_filter] at hmem
        have hv : v = user :=
          nodupKeys_unique _ hnd uid v user hmem.1 (mapGet_some_mem _ _ _ hget)
        subst hv
        have hfresh : pruneTime - v.lastActive ≤ 130000 := by simpa using hmem.2
        exact absurd hstale (not_lt.2 hfresh)
    have hnoop : onSetStatus conn status now (idlePruner pruneTime st0).1 =
        ((idlePruner pruneTime st0).1, []) := by
      apply onSetStatus_unregistered
      intro uid2 h2
      rw [hconn] at h2
      cases h2
      exact hgone
    exact ⟨hnoop, by rw [hnoop]; exact hgone⟩

/-- Witness for C29: Ana is evicted by the sweep at time 140000; her `set_status` afterwards
changes nothing, and `set_status` of the unregistered user 7 changes nothing. -/
theorem setStatus_unregistered_noop_witness :
    onSetStatus { socketId := "s7", currentUserId := some 7 } Status.online 150000 exState =
        (exState, []) ∧
      onSetStatus exAnaConn Status.online 150000 (idlePruner 140000 exState).1 =
        ((idlePruner 140000 exState).1, []) :=
  ⟨(setStatus_unregistered_noop { socketId := "s7", currentUserId := some 7 } Status.online
      150000 exState (by intro uid h; cases h; decide)).1,
   ((setStatus_unregistered_noop exAnaConn Status.online 150000
      { db := exDb, onlineUsers := [] } (by intro uid h; rfl)).2.2.2
      exState 1 exAnaEntry 140000 (by unfold NodupKeys; decide) rfl (by decide)
      (by decide)).1⟩

/-- C30: a group call announced by `group_call_started` is pending (`incoming` is `true`);
`rejectCall` emits its two messages with an undefined recipient and then throws at
`callState.incoming.close()`: the state update is not reached and the request stays
pending. -/
theorem reject_group_call_throws :
    (onGroupCallStarted 1 "g1" 2 idleCallState).incoming = Slot.flag ∧
      (rejectCall (some 1) 1 "Jan 1" "10:00"
        (onGroupCallStarted 1 "g1" 2 idleCallState)).error = some closeNotFunctionError ∧
      (rejectCall (some 1) 1 "Jan 1" "10:00"
        (onGroupCallStarted 1 "g1" 2 idleCallState)).state.incoming = Slot.flag ∧
      (rejectCall (some 1) 1 "Jan 1" "10:00"
        (onGroupCallStarted 1 "g1" 2 idleCallState)).effects =
        [Effect.emit 1 (RelayMsg.registerCallEvent 1 PartyId.undefined false
           (CallEventStatus.cancelledAt "Jan 1" "10:00")),
         Effect.emit 1 (RelayMsg.callTermination PartyId.undefined)] := by
  decide

end Minho
